import Mathlib

/-!
# Verification of the Optics calculator (src/app.py)

Shallow embedding of the equation-solving core of the Optics repository:
the input validator, the mirror and lens solvers, rounding, image
classification, and the response assembly of the calculate route.

Python floats are modelled by the type `PFloat`: an exact rational for
finite values, plus the IEEE special values positive infinity, negative
infinity and NaN, which the program produces (via the explicit
`float('inf')` sentinels of the focal-point branches) and propagates.
Division mirrors Python semantics: dividing by (finite) zero raises
`ZeroDivisionError`, modelled by `pdiv` returning `none`; division by an
infinite or NaN denominator follows IEEE rules.  `round(x, 3)` is
modelled as round-half-to-even of `x * 1000` divided by `1000`.
-/

namespace Optics

/-- A Python float value: finite rational, plus inf / -inf / nan. -/
inductive PFloat where
  | fin (q : ℚ)
  | inf
  | ninf
  | nan
deriving DecidableEq, Repr

/-- Unary minus on floats. -/
def pneg : PFloat → PFloat
  | .fin q => .fin (-q)
  | .inf => .ninf
  | .ninf => .inf
  | .nan => .nan

/-- Python abs on floats. -/
def pabs : PFloat → PFloat
  | .fin q => .fin |q|
  | .inf => .inf
  | .ninf => .inf
  | .nan => .nan

/-- Float addition with IEEE special values. -/
def padd : PFloat → PFloat → PFloat
  | .fin a, .fin b => .fin (a + b)
  | .fin _, .inf => .inf
  | .fin _, .ninf => .ninf
  | .inf, .fin _ => .inf
  | .ninf, .fin _ => .ninf
  | .inf, .inf => .inf
  | .ninf, .ninf => .ninf
  | .inf, .ninf => .nan
  | .ninf, .inf => .nan
  | .nan, _ => .nan
  | _, .nan => .nan

/-- Float subtraction. -/
def psub (a b : PFloat) : PFloat := padd a (pneg b)

/-- Float multiplication with IEEE special values. -/
def pmul : PFloat → PFloat → PFloat
  | .fin a, .fin b => .fin (a * b)
  | .fin a, .inf => if 0 < a then .inf else if a < 0 then .ninf else .nan
  | .fin a, .ninf => if 0 < a then .ninf else if a < 0 then .inf else .nan
  | .inf, .fin b => if 0 < b then .inf else if b < 0 then .ninf else .nan
  | .ninf, .fin b => if 0 < b then .ninf else if b < 0 then .inf else .nan
  | .inf, .inf => .inf
  | .inf, .ninf => .ninf
  | .ninf, .inf => .ninf
  | .ninf, .ninf => .inf
  | .nan, _ => .nan
  | _, .nan => .nan

/-- Python float division.  `none` models a raised `ZeroDivisionError`
(Python raises whenever the denominator equals `0.0`, for every
numerator including infinities and NaN).  Infinite and NaN denominators
follow IEEE semantics. -/
def pdiv : PFloat → PFloat → Option PFloat
  | a, .fin q =>
    if q = 0 then none
    else some (match a with
      | .fin p => .fin (p / q)
      | .inf => if 0 < q then .inf else .ninf
      | .ninf => if 0 < q then .ninf else .inf
      | .nan => .nan)
  | .nan, _ => some .nan
  | .fin _, .inf => some (.fin 0)
  | .fin _, .ninf => some (.fin 0)
  | _, .inf => some .nan
  | _, .ninf => some .nan
  | _, .nan => some .nan

/-- Total division used in statements about the non-raising paths:
the value of `pdiv` when it is known not to raise. -/
def pdivT (a b : PFloat) : PFloat := (pdiv a b).getD .nan

/-- Python `<` on floats (NaN compares false). -/
def plt : PFloat → PFloat → Bool
  | .fin a, .fin b => decide (a < b)
  | .fin _, .inf => true
  | .ninf, .fin _ => true
  | .ninf, .inf => true
  | _, _ => false

/-- Python `<=` on floats (NaN compares false). -/
def ple : PFloat → PFloat → Bool
  | .fin a, .fin b => decide (a ≤ b)
  | .fin _, .inf => true
  | .inf, .inf => true
  | .ninf, .fin _ => true
  | .ninf, .inf => true
  | .ninf, .ninf => true
  | _, _ => false

/-- Python `>` on floats. -/
def pgt (a b : PFloat) : Bool := plt b a

/-- Python `>=` on floats. -/
def pge (a b : PFloat) : Bool := ple b a

/-- Python `==` on floats (NaN equals nothing). -/
def peq : PFloat → PFloat → Bool
  | .fin a, .fin b => decide (a = b)
  | .inf, .inf => true
  | .ninf, .ninf => true
  | _, _ => false

/-- Python `math.isinf`. -/
def pisinf : PFloat → Bool
  | .inf => true
  | .ninf => true
  | _ => false

/-- Round half to even, Python's tie-breaking rule for `round`. -/
def rhe (q : ℚ) : ℤ :=
  let n : ℤ := ⌊q⌋
  let r : ℚ := q - (n : ℚ)
  if r < 1/2 then n
  else if 1/2 < r then n + 1
  else if n % 2 = 0 then n else n + 1

/-- Python `round(q, 3)` on a finite value. -/
def roundQ3 (q : ℚ) : ℚ := (rhe (q * 1000) : ℚ) / 1000

/-- Rounding one value as `_round_values` does: finite values are
rounded to 3 decimals, infinities (and NaN) are left untouched. -/
def roundP : PFloat → PFloat
  | .fin q => .fin (roundQ3 q)
  | x => x

/-- The threshold `1e-6` of the focal-point degeneracy checks. -/
def eps : PFloat := .fin (1 / 1000000)

/-- Optic type selection. -/
inductive OpticType where
  | mirror
  | lens
deriving DecidableEq, Repr

/-- Shape selection. -/
inductive Shape where
  | concave
  | convex
deriving DecidableEq, Repr

/-- The shape name as interpolated into the mirror warning string. -/
def shapeStr : Shape → String
  | .concave => "concave"
  | .convex => "convex"

/-- The mirror focal-length warning with the shape name interpolated. -/
def mirrorFWarnMsg : Shape → String
  | .concave => "Using absolute value of focal length for concave mirror"
  | .convex => "Using absolute value of focal length for convex mirror"

/-- The parsed numeric inputs handed to the calculator (the `inputs`
dict built by the route: every supplied key already parsed to float). -/
structure InputData where
  focal_length : Option PFloat := none
  u : Option PFloat := none
  v : Option PFloat := none
  h1 : Option PFloat := none
  h2 : Option PFloat := none
deriving DecidableEq, Repr

/-- The image-characteristics record built by
`_analyze_image_characteristics`.  The magnification field holds
`PFloat.inf` where the code stores the string sentinel for infinity. -/
structure ImageChars where
  nature : String
  orientation : String
  size : String
  magnification : PFloat
deriving DecidableEq, Repr

/-- The mutable calculator state: the five measured values plus the
diagnostics lists and the optional characteristics record. -/
structure MState where
  focal_length : Option PFloat
  u : Option PFloat
  v : Option PFloat
  h1 : Option PFloat
  h2 : Option PFloat
  errors : List String
  warnings : List String
  chars : Option ImageChars
deriving DecidableEq, Repr

/-- Error message for a non-negative object distance. -/
def uErrMsg : String := "Object distance (u) must be negative (object is on the left side)"

/-- Error message for a non-positive object height. -/
def h1ErrMsg : String := "Object height (h1) must be positive"

/-- Error message for fewer than two supplied values. -/
def countErrMsg : String := "At least 2 parameters must be provided for calculation"

/-- Advisory appended when the object sits at the focal point. -/
def objAtFocusMsg : String := "Object at focal point - image formed at infinity (parallel rays)"

/-- Advisory appended when the image sits at the focal point. -/
def imgAtFocusMsg : String := "Image at focal point - object would be at infinity"

/-- Message appended when a caught arithmetic fault aborts the solve. -/
def calcErrMsg : String := "Calculation error: float division by zero"

/-- Focal-length checks of `validate_inputs` (errors, warnings). -/
def fChecks (fv : Option PFloat) (ot : OpticType) (sh : Shape) :
    List String × List String :=
  match fv with
  | none => ([], [])
  | some f =>
    if peq f (.fin 0) then (["Focal length cannot be zero"], [])
    else match ot with
      | .mirror =>
        if ple f (.fin 0) then ([], [mirrorFWarnMsg sh])
        else ([], [])
      | .lens =>
        match sh with
        | .convex =>
          if ple f (.fin 0) then ([], ["Convex lens focal length should be positive"])
          else ([], [])
        | .concave =>
          if pge f (.fin 0) then ([], ["Concave lens focal length should be negative"])
          else ([], [])

/-- Object-distance check of `validate_inputs`. -/
def uChecks (uv : Option PFloat) : List String :=
  match uv with
  | none => []
  | some u => if pge u (.fin 0) then [uErrMsg] else []

/-- Object-height check of `validate_inputs`. -/
def h1Checks (hv : Option PFloat) : List String :=
  match hv with
  | none => []
  | some h => if ple h (.fin 0) then [h1ErrMsg] else []

/-- Number of supplied values among the five. -/
def countGiven (d : InputData) : Nat :=
  (if d.focal_length.isSome then 1 else 0) + (if d.u.isSome then 1 else 0) +
  (if d.v.isSome then 1 else 0) + (if d.h1.isSome then 1 else 0) +
  (if d.h2.isSome then 1 else 0)

/-- The insufficient-inputs check of `validate_inputs`. -/
def countCheck (d : InputData) : List String :=
  if countGiven d < 2 then [countErrMsg] else []

/-- `validate_inputs`: returns the (errors, warnings) pair it leaves on
the calculator.  Validation succeeds exactly when the error list is
empty.  The parsed inputs are already floats, so the number-format
branches never fire. -/
def validateInputs (d : InputData) (ot : Option OpticType) (sh : Option Shape) :
    List String × List String :=
  match ot, sh with
  | some otv, some shv =>
    let fc := fChecks d.focal_length otv shv
    (fc.1 ++ uChecks d.u ++ h1Checks d.h1 ++ countCheck d, fc.2)
  | _, _ => (["Please select both optic type and shape"], [])

/-- The mirror sign normalization applied to a supplied focal length
before any formula: a concave mirror's f is forced negative, a convex
mirror's f is forced positive. -/
def mirrorNormF (sh : Shape) (f : PFloat) : PFloat :=
  match sh with
  | .concave => if pgt f (.fin 0) then pneg (pabs f) else f
  | .convex => if plt f (.fin 0) then pabs f else f

/-- A solve step: either the updated state, or a caught
`ZeroDivisionError` together with the state at the raise point (the
mutations made before the raising statement persist, as they do on the
Python object). -/
abbrev Solve := Except (String × MState) MState

/-- The initial calculator state when a calculate method starts:
values copied from the inputs, errors empty (validation passed),
warnings carried over from validation. -/
def initState (d : InputData) (w : List String) : MState :=
  ⟨d.focal_length, d.u, d.v, d.h1, d.h2, [], w, none⟩

/-- Mirror distance derivation (the three-way elif chain of
`calculate_mirror`): derive f from (u, v), else v from (f, u) with the
object-at-focal-point special case, else u from (f, v) with the
image-at-focal-point special case. -/
def mirrorDistances (s : MState) : Solve :=
  match s.u, s.v, s.focal_length with
  | some u, some v, none =>
    match pdiv (pmul u v) (padd u v) with
    | none => .error ("float division by zero", s)
    | some f => .ok { s with focal_length := some f }
  | some u, none, some f =>
    if plt (pabs (psub u f)) eps then
      .ok { s with
        v := some (if plt f (.fin 0) then .inf else .ninf),
        errors := s.errors ++ [objAtFocusMsg] }
    else
      match pdiv (pmul f u) (psub u f) with
      | none => .error ("float division by zero", s)
      | some v => .ok { s with v := some v }
  | none, some v, some f =>
    if plt (pabs (psub v f)) eps then
      .ok { s with
        u := some (if plt f (.fin 0) then .inf else .ninf),
        errors := s.errors ++ [imgAtFocusMsg] }
    else
      match pdiv (pmul f v) (psub v f) with
      | none => .error ("float division by zero", s)
      | some u => .ok { s with u := some u }
  | _, _, _ => .ok s

/-- Mirror magnification step: when u and v are both known compute
m = -v/u, then derive the missing height if exactly one is known. -/
def mirrorMag (s : MState) : Solve :=
  match s.u, s.v with
  | some u, some v =>
    match pdiv (pneg v) u with
    | none => .error ("float division by zero", s)
    | some m =>
      match s.h1, s.h2 with
      | some h1, none => .ok { s with h2 := some (pmul m h1) }
      | none, some h2 =>
        match pdiv h2 m with
        | none => .error ("float division by zero", s)
        | some h1v => .ok { s with h1 := some h1v }
      | _, _ => .ok s
  | _, _ => .ok s

/-- Mirror height back-substitution: when both heights are known,
m = h2/h1, then derive a missing distance. -/
def mirrorHBoth (s : MState) : Solve :=
  match s.h1, s.h2 with
  | some h1, some h2 =>
    match pdiv h2 h1 with
    | none => .error ("float division by zero", s)
    | some m =>
      match s.u, s.v with
      | some u, none => .ok { s with v := some (pmul (pneg m) u) }
      | none, some v =>
        match pdiv (pneg v) m with
        | none => .error ("float division by zero", s)
        | some uv => .ok { s with u := some uv }
      | _, _ => .ok s
  | _, _ => .ok s

/-- Mirror default-height synthesis: when h1 is still unknown and f is
known, set h1 = 0.3 * abs(f); when u and v are also known, recompute
h2 = -(v/u) * h1 (note: the mutation of h1 persists across a raise of
the v/u division, as on the Python object). -/
def mirrorDefaultH (s : MState) : Solve :=
  match s.h1, s.focal_length with
  | none, some f =>
    let h1v := pmul (pabs f) (.fin (3/10))
    let s1 := { s with h1 := some h1v }
    match s1.u, s1.v with
    | some u, some v =>
      match pdiv v u with
      | none => .error ("float division by zero", s1)
      | some r => .ok { s1 with h2 := some (pmul (pneg r) h1v) }
    | _, _ => .ok s1
  | _, _ => .ok s

/-- `_round_values`: round all present finite values to 3 decimals. -/
def roundValues (s : MState) : MState :=
  { s with
    focal_length := s.focal_length.map roundP,
    u := s.u.map roundP,
    v := s.v.map roundP,
    h1 := s.h1.map roundP,
    h2 := s.h2.map roundP }

/-- `_analyze_image_characteristics`: runs only once u, v, h1, h2 are
all known; infinite u or v produces the image-at-infinity record;
otherwise nature, orientation and size are classified. -/
def analyzeChars (ot : OpticType) (s : MState) : MState :=
  match s.u, s.v, s.h1, s.h2 with
  | some u, some v, some h1, some h2 =>
    if pisinf v || pisinf u then
      { s with chars := some ⟨"Image at infinity", "Parallel rays", "Infinite", .inf⟩ }
    else
      let m := if peq h1 (.fin 0) then PFloat.fin 0 else pabs (pdivT h2 h1)
      let nature :=
        match ot with
        | .mirror => if plt v (.fin 0) then "Real" else "Virtual"
        | .lens => if pgt v (.fin 0) then "Real" else "Virtual"
      let orientation := if pgt (pmul h2 h1) (.fin 0) then "Erect" else "Inverted"
      let size :=
        if pgt m (.fin 1) then "Magnified"
        else if plt m (.fin 1) then "Diminished"
        else "Same size"
      { s with chars := some ⟨nature, orientation, size, roundP m⟩ }
  | _, _, _, _ => s

/-- The body of the try block of `calculate_mirror`: the four solve
steps in the order the statements appear, then rounding and image
classification; a raise anywhere short-circuits to the handler. -/
def mirrorBody (s : MState) : Solve :=
  match mirrorDistances s with
  | .error e => .error e
  | .ok s =>
    match mirrorMag s with
    | .error e => .error e
    | .ok s =>
      match mirrorHBoth s with
      | .error e => .error e
      | .ok s =>
        match mirrorDefaultH s with
        | .error e => .error e
        | .ok s => .ok (analyzeChars .mirror (roundValues s))

/-- The state `calculate_mirror` works on after extracting the inputs
and applying the mirror sign normalization to f. -/
def mirrorInit (d : InputData) (sh : Shape) (w : List String) : MState :=
  { initState d w with focal_length := d.focal_length.map (mirrorNormF sh) }

/-- `calculate_mirror`: extract inputs, normalize the focal-length
sign, run the solve chain; a caught ZeroDivisionError appends the
calculation-error diagnostic and returns False. -/
def calculateMirror (d : InputData) (sh : Shape) (w : List String) : Bool × MState :=
  match mirrorBody (mirrorInit d sh w) with
  | .ok s => (true, s)
  | .error (_, s) => (false, { s with errors := s.errors ++ [calcErrMsg] })

/-- Lens distance derivation of `calculate_lens`: derive
f = u*v/(v-u) from (u, v), else v from (f, u) with the
object-at-focal-point special case at abs(u + f) < 1e-6, else u from
(f, v) with the image-at-focal-point special case. -/
def lensDistances (s : MState) : Solve :=
  match s.u, s.v, s.focal_length with
  | some u, some v, none =>
    match pdiv (pmul u v) (psub v u) with
    | none => .error ("float division by zero", s)
    | some f => .ok { s with focal_length := some f }
  | some u, none, some f =>
    if plt (pabs (padd u f)) eps then
      .ok { s with
        v := some (if pgt f (.fin 0) then .inf else .ninf),
        errors := s.errors ++ [objAtFocusMsg] }
    else
      match pdiv (pmul f u) (padd u f) with
      | none => .error ("float division by zero", s)
      | some v => .ok { s with v := some v }
  | none, some v, some f =>
    if plt (pabs (psub v f)) eps then
      .ok { s with
        u := some (if pgt f (.fin 0) then .inf else .ninf),
        errors := s.errors ++ [imgAtFocusMsg] }
    else
      match pdiv (pmul f v) (psub v f) with
      | none => .error ("float division by zero", s)
      | some u => .ok { s with u := some u }
  | _, _, _ => .ok s

/-- Lens magnification step: m = v/u. -/
def lensMag (s : MState) : Solve :=
  match s.u, s.v with
  | some u, some v =>
    match pdiv v u with
    | none => .error ("float division by zero", s)
    | some m =>
      match s.h1, s.h2 with
      | some h1, none => .ok { s with h2 := some (pmul m h1) }
      | none, some h2 =>
        match pdiv h2 m with
        | none => .error ("float division by zero", s)
        | some h1v => .ok { s with h1 := some h1v }
      | _, _ => .ok s
  | _, _ => .ok s

/-- Lens height back-substitution: m = h2/h1, v = m*u or u = v/m. -/
def lensHBoth (s : MState) : Solve :=
  match s.h1, s.h2 with
  | some h1, some h2 =>
    match pdiv h2 h1 with
    | none => .error ("float division by zero", s)
    | some m =>
      match s.u, s.v with
      | some u, none => .ok { s with v := some (pmul m u) }
      | none, some v =>
        match pdiv v m with
        | none => .error ("float division by zero", s)
        | some uv => .ok { s with u := some uv }
      | _, _ => .ok s
  | _, _ => .ok s

/-- Lens default-height synthesis: h1 = 0.3 * abs(f) and, when u and v
are known, h2 = (v/u) * h1. -/
def lensDefaultH (s : MState) : Solve :=
  match s.h1, s.focal_length with
  | none, some f =>
    let h1v := pmul (pabs f) (.fin (3/10))
    let s1 := { s with h1 := some h1v }
    match s1.u, s1.v with
    | some u, some v =>
      match pdiv v u with
      | none => .error ("float division by zero", s1)
      | some r => .ok { s1 with h2 := some (pmul r h1v) }
    | _, _ => .ok s1
  | _, _ => .ok s

/-- The body of the try block of `calculate_lens`. -/
def lensBody (s : MState) : Solve :=
  match lensDistances s with
  | .error e => .error e
  | .ok s =>
    match lensMag s with
    | .error e => .error e
    | .ok s =>
      match lensHBoth s with
      | .error e => .error e
      | .ok s =>
        match lensDefaultH s with
        | .error e => .error e
        | .ok s => .ok (analyzeChars .lens (roundValues s))

/-- `calculate_lens`: no sign normalization is applied to f. -/
def calculateLens (d : InputData) (sh : Shape) (w : List String) : Bool × MState :=
  let s0 := initState d w
  match lensBody s0 with
  | .ok s => (true, s)
  | .error (_, s) => (false, { s with errors := s.errors ++ [calcErrMsg] })

/-- The JSON response of the calculate route (diagram field omitted:
rendering is outside the modelled core).  On success the five results
and the warnings list are returned; on failure only the errors list. -/
structure Response where
  success : Bool
  errors : List String
  warnings : List String
  rFocal : Option PFloat := none
  rU : Option PFloat := none
  rV : Option PFloat := none
  rH1 : Option PFloat := none
  rH2 : Option PFloat := none
  rChars : Option ImageChars := none
deriving DecidableEq, Repr

/-- The calculate route after input parsing: validate, then dispatch to
the mirror or lens solver, then assemble the response.  A failed
validation or solve yields a failure response carrying the errors; a
successful solve yields the results plus the calculator warnings. -/
def calcRoute (d : InputData) (ot : Option OpticType) (sh : Option Shape) : Response :=
  match ot, sh with
  | some otv, some shv =>
    let ew := validateInputs d (some otv) (some shv)
    if ew.1.isEmpty then
      let r := match otv with
        | .mirror => calculateMirror d shv ew.2
        | .lens => calculateLens d shv ew.2
      if r.1 then
        { success := true, errors := [], warnings := r.2.warnings,
          rFocal := r.2.focal_length, rU := r.2.u, rV := r.2.v,
          rH1 := r.2.h1, rH2 := r.2.h2, rChars := r.2.chars }
      else
        { success := false, errors := r.2.errors, warnings := [] }
    else
      { success := false, errors := ew.1, warnings := [] }
  | _, _ =>
    { success := false, errors := ["Please select both optic type and shape"], warnings := [] }

/-! ## Basic lemmas about the float model -/

/-- Division does not raise when the denominator is not (finite) zero. -/
theorem pdiv_of_ne_zero {b : PFloat} (hb : b ≠ .fin 0) (a : PFloat) :
    pdiv a b = some (pdivT a b) := by
  unfold pdivT
  cases b with
  | fin q =>
    have hq : q ≠ 0 := by rintro rfl; exact hb rfl
    cases a <;> simp [pdiv, hq]
  | inf => cases a <;> simp [pdiv]
  | ninf => cases a <;> simp [pdiv]
  | nan => cases a <;> simp [pdiv]

/-- A value below the `pge` zero test is not finite zero. -/
theorem ne_fin0_of_not_pge {u : PFloat} (h : pge u (.fin 0) = false) :
    u ≠ .fin 0 := by
  intro h0; rw [h0] at h; norm_num [pge, ple] at h

/-- If the mirror degeneracy guard fails, its denominator is nonzero. -/
theorem psub_ne_fin0_of_guard {u f : PFloat}
    (h : plt (pabs (psub u f)) eps = false) : psub u f ≠ .fin 0 := by
  intro h0; rw [h0] at h; norm_num [pabs, plt, eps] at h

/-- If the lens degeneracy guard fails, its denominator is nonzero. -/
theorem padd_ne_fin0_of_guard {u f : PFloat}
    (h : plt (pabs (padd u f)) eps = false) : padd u f ≠ .fin 0 := by
  intro h0; rw [h0] at h; norm_num [pabs, plt, eps] at h

/-- Rounding is the identity on zero. -/
@[simp] theorem roundQ3_zero : roundQ3 0 = 0 := by
  norm_num [roundQ3, rhe]

/-- Rounding is the identity on float zero. -/
theorem roundP_fin0 : roundP (.fin 0) = .fin 0 := by
  norm_num [roundP, roundQ3, rhe]

/-- Signed infinities are untouched by rounding. -/
theorem roundP_signed (c : Bool) :
    roundP (if c then PFloat.inf else PFloat.ninf) =
      (if c then PFloat.inf else PFloat.ninf) := by
  cases c <;> rfl

/-! ## Decomposition of the solve chains -/

/-- A successful mirror solve decomposes into four successful steps
followed by rounding and classification. -/
theorem mirrorBody_ok {s t : MState} (h : mirrorBody s = .ok t) :
    ∃ s1 s2 s3 s4, mirrorDistances s = .ok s1 ∧ mirrorMag s1 = .ok s2 ∧
      mirrorHBoth s2 = .ok s3 ∧ mirrorDefaultH s3 = .ok s4 ∧
      t = analyzeChars .mirror (roundValues s4) := by
  unfold mirrorBody at h
  cases h1 : mirrorDistances s <;> rw [h1] at h <;> simp only [] at h
  case error => exact absurd h (by simp)
  case ok s1 =>
    cases h2 : mirrorMag s1 <;> rw [h2] at h <;> simp only [] at h
    case error => exact absurd h (by simp)
    case ok s2 =>
      cases h3 : mirrorHBoth s2 <;> rw [h3] at h <;> simp only [] at h
      case error => exact absurd h (by simp)
      case ok s3 =>
        cases h4 : mirrorDefaultH s3 <;> rw [h4] at h <;> simp only [] at h
        case error => exact absurd h (by simp)
        case ok s4 =>
          exact ⟨s1, s2, s3, s4, rfl, h2, h3, h4, by
            cases h; rfl⟩

/-- A successful lens solve decomposes into four successful steps
followed by rounding and classification. -/
theorem lensBody_ok {s t : MState} (h : lensBody s = .ok t) :
    ∃ s1 s2 s3 s4, lensDistances s = .ok s1 ∧ lensMag s1 = .ok s2 ∧
      lensHBoth s2 = .ok s3 ∧ lensDefaultH s3 = .ok s4 ∧
      t = analyzeChars .lens (roundValues s4) := by
  unfold lensBody at h
  cases h1 : lensDistances s <;> rw [h1] at h <;> simp only [] at h
  case error => exact absurd h (by simp)
  case ok s1 =>
    cases h2 : lensMag s1 <;> rw [h2] at h <;> simp only [] at h
    case error => exact absurd h (by simp)
    case ok s2 =>
      cases h3 : lensHBoth s2 <;> rw [h3] at h <;> simp only [] at h
      case error => exact absurd h (by simp)
      case ok s3 =>
        cases h4 : lensDefaultH s3 <;> rw [h4] at h <;> simp only [] at h
        case error => exact absurd h (by simp)
        case ok s4 =>
          exact ⟨s1, s2, s3, s4, rfl, h2, h3, h4, by
            cases h; rfl⟩

/-! ## Field-tracking lemmas for the solve steps

Each derivation branch of the solvers is guarded by the absence of the
value it writes, so supplied (or previously derived) values survive
every step.  The one unguarded write, the h2 recomputation of the
default-height branch, is only reachable when h1 was still unknown,
which together with the magnification step rules out a present h2 when
u and v are known. -/

/-- The distance step never unsets and never overwrites a present
value; heights and warnings are untouched. -/
theorem mirrorDistances_pres {s s' : MState} (h : mirrorDistances s = .ok s') :
    (∀ x, s.focal_length = some x → s'.focal_length = some x) ∧
    (∀ x, s.u = some x → s'.u = some x) ∧
    (∀ x, s.v = some x → s'.v = some x) ∧
    s'.h1 = s.h1 ∧ s'.h2 = s.h2 ∧ s'.warnings = s.warnings := by
  unfold mirrorDistances at h
  rcases hsu : s.u with _ | u <;> rcases hsv : s.v with _ | v <;>
    rcases hsf : s.focal_length with _ | f <;> rw [hsu, hsv, hsf] at h <;>
    (try simp only [] at h) <;> (try split at h) <;> (try split at h) <;>
    (cases h <;> simp_all)

/-- Same preservation statement for the lens distance step. -/
theorem lensDistances_pres {s s' : MState} (h : lensDistances s = .ok s') :
    (∀ x, s.focal_length = some x → s'.focal_length = some x) ∧
    (∀ x, s.u = some x → s'.u = some x) ∧
    (∀ x, s.v = some x → s'.v = some x) ∧
    s'.h1 = s.h1 ∧ s'.h2 = s.h2 ∧ s'.warnings = s.warnings := by
  unfold lensDistances at h
  rcases hsu : s.u with _ | u <;> rcases hsv : s.v with _ | v <;>
    rcases hsf : s.focal_length with _ | f <;> rw [hsu, hsv, hsf] at h <;>
    (try simp only [] at h) <;> (try split at h) <;> (try split at h) <;>
    (cases h <;> simp_all)

/-- The magnification step leaves f, u, v untouched, never overwrites
a present height, and establishes the invariants used downstream: once
u and v are known, a known h2 forces a known h1, and a known h1 forces
a known h2. -/
theorem mirrorMag_pres {s s' : MState} (h : mirrorMag s = .ok s') :
    s'.focal_length = s.focal_length ∧ s'.u = s.u ∧ s'.v = s.v ∧
    (∀ x, s.h1 = some x → s'.h1 = some x) ∧
    (∀ x, s.h2 = some x → s'.h2 = some x) ∧
    s'.warnings = s.warnings ∧
    (s'.u.isSome → s'.v.isSome → s'.h2.isSome → s'.h1.isSome) ∧
    (s.u.isSome → s.v.isSome → s'.h1.isSome → s'.h2.isSome) := by
  unfold mirrorMag at h
  rcases hsu : s.u with _ | u <;> rcases hsv : s.v with _ | v <;>
    rcases hh1 : s.h1 with _ | h1 <;> rcases hh2 : s.h2 with _ | h2 <;>
    rw [hsu, hsv] at h <;> (try simp only [] at h) <;>
    (try split at h) <;> (try rw [hh1, hh2] at h) <;>
    (try simp only [] at h) <;> (try split at h) <;>
    (cases h <;> simp_all)

/-- Same statement for the lens magnification step. -/
theorem lensMag_pres {s s' : MState} (h : lensMag s = .ok s') :
    s'.focal_length = s.focal_length ∧ s'.u = s.u ∧ s'.v = s.v ∧
    (∀ x, s.h1 = some x → s'.h1 = some x) ∧
    (∀ x, s.h2 = some x → s'.h2 = some x) ∧
    s'.warnings = s.warnings ∧
    (s'.u.isSome → s'.v.isSome → s'.h2.isSome → s'.h1.isSome) ∧
    (s.u.isSome → s.v.isSome → s'.h1.isSome → s'.h2.isSome) := by
  unfold lensMag at h
  rcases hsu : s.u with _ | u <;> rcases hsv : s.v with _ | v <;>
    rcases hh1 : s.h1 with _ | h1 <;> rcases hh2 : s.h2 with _ | h2 <;>
    rw [hsu, hsv] at h <;> (try simp only [] at h) <;>
    (try split at h) <;> (try rw [hh1, hh2] at h) <;>
    (try simp only [] at h) <;> (try split at h) <;>
    (cases h <;> simp_all)

/-- The height back-substitution step leaves f and the heights
untouched, never overwrites a present distance, and preserves the
h2-forces-h1 invariant. -/
theorem mirrorHBoth_pres {s s' : MState} (h : mirrorHBoth s = .ok s') :
    s'.focal_length = s.focal_length ∧ s'.h1 = s.h1 ∧ s'.h2 = s.h2 ∧
    (∀ x, s.u = some x → s'.u = some x) ∧
    (∀ x, s.v = some x → s'.v = some x) ∧
    s'.warnings = s.warnings ∧
    ((s.u.isSome → s.v.isSome → s.h2.isSome → s.h1.isSome) →
      s'.u.isSome → s'.v.isSome → s'.h2.isSome → s'.h1.isSome) := by
  unfold mirrorHBoth at h
  rcases hh1 : s.h1 with _ | h1 <;> rcases hh2 : s.h2 with _ | h2 <;>
    rcases hsu : s.u with _ | u <;> rcases hsv : s.v with _ | v <;>
    rw [hh1, hh2] at h <;> (try simp only [] at h) <;>
    (try split at h) <;> (try rw [hsu, hsv] at h) <;>
    (try simp only [] at h) <;> (try split at h) <;>
    (cases h <;> simp_all)

/-- Same statement for the lens height back-substitution step. -/
theorem lensHBoth_pres {s s' : MState} (h : lensHBoth s = .ok s') :
    s'.focal_length = s.focal_length ∧ s'.h1 = s.h1 ∧ s'.h2 = s.h2 ∧
    (∀ x, s.u = some x → s'.u = some x) ∧
    (∀ x, s.v = some x → s'.v = some x) ∧
    s'.warnings = s.warnings ∧
    ((s.u.isSome → s.v.isSome → s.h2.isSome → s.h1.isSome) →
      s'.u.isSome → s'.v.isSome → s'.h2.isSome → s'.h1.isSome) := by
  unfold lensHBoth at h
  rcases hh1 : s.h1 with _ | h1 <;> rcases hh2 : s.h2 with _ | h2 <;>
    rcases hsu : s.u with _ | u <;> rcases hsv : s.v with _ | v <;>
    rw [hh1, hh2] at h <;> (try simp only [] at h) <;>
    (try split at h) <;> (try rw [hsu, hsv] at h) <;>
    (try simp only [] at h) <;> (try split at h) <;>
    (cases h <;> simp_all)

/-- Under the h2-forces-h1 invariant the default-height step leaves
f, u, v untouched and never overwrites a present height (in
particular a supplied h2 is never recomputed). -/
theorem mirrorDefaultH_pres {s s' : MState} (h : mirrorDefaultH s = .ok s')
    (hI : s.u.isSome → s.v.isSome → s.h2.isSome → s.h1.isSome) :
    s'.focal_length = s.focal_length ∧ s'.u = s.u ∧ s'.v = s.v ∧
    (∀ x, s.h1 = some x → s'.h1 = some x) ∧
    (∀ x, s.h2 = some x → s'.h2 = some x) ∧
    s'.warnings = s.warnings := by
  unfold mirrorDefaultH at h
  rcases hh1 : s.h1 with _ | h1 <;> rcases hsf : s.focal_length with _ | f <;>
    rw [hh1, hsf] at h <;> (try simp only [] at h) <;>
    (try split at h) <;> (try split at h) <;>
    (cases h <;> simp_all)

/-- Same statement for the lens default-height step. -/
theorem lensDefaultH_pres {s s' : MState} (h : lensDefaultH s = .ok s')
    (hI : s.u.isSome → s.v.isSome → s.h2.isSome → s.h1.isSome) :
    s'.focal_length = s.focal_length ∧ s'.u = s.u ∧ s'.v = s.v ∧
    (∀ x, s.h1 = some x → s'.h1 = some x) ∧
    (∀ x, s.h2 = some x → s'.h2 = some x) ∧
    s'.warnings = s.warnings := by
  unfold lensDefaultH at h
  rcases hh1 : s.h1 with _ | h1 <;> rcases hsf : s.focal_length with _ | f <;>
    rw [hh1, hsf] at h <;> (try simp only [] at h) <;>
    (try split at h) <;> (try split at h) <;>
    (cases h <;> simp_all)

/-- When f, u, v are all known and a known h1 forces a known h2, the
default-height step leaves both heights known. -/
theorem mirrorDefaultH_solves {s s' : MState} (h : mirrorDefaultH s = .ok s')
    (hf : s.focal_length.isSome) (hu : s.u.isSome) (hv : s.v.isSome)
    (hJ : s.h1.isSome → s.h2.isSome) : s'.h1.isSome ∧ s'.h2.isSome := by
  unfold mirrorDefaultH at h
  rcases hh1 : s.h1 with _ | h1 <;> rcases hsf : s.focal_length with _ | f <;>
    rcases hsu : s.u with _ | u <;> rcases hsv : s.v with _ | v <;>
    rw [hh1, hsf] at h <;> (try simp only [] at h) <;>
    (try rw [hsu, hsv] at h) <;> (try simp only [] at h) <;>
    (try split at h) <;> (cases h <;> simp_all)

/-- Same statement for the lens default-height step. -/
theorem lensDefaultH_solves {s s' : MState} (h : lensDefaultH s = .ok s')
    (hf : s.focal_length.isSome) (hu : s.u.isSome) (hv : s.v.isSome)
    (hJ : s.h1.isSome → s.h2.isSome) : s'.h1.isSome ∧ s'.h2.isSome := by
  unfold lensDefaultH at h
  rcases hh1 : s.h1 with _ | h1 <;> rcases hsf : s.focal_length with _ | f <;>
    rcases hsu : s.u with _ | u <;> rcases hsv : s.v with _ | v <;>
    rw [hh1, hsf] at h <;> (try simp only [] at h) <;>
    (try rw [hsu, hsv] at h) <;> (try simp only [] at h) <;>
    (try split at h) <;> (cases h <;> simp_all)

/-- With at least two of f, u, v known, a successful distance step
leaves all three known. -/
theorem mirrorDistances_solves {s s' : MState} (h : mirrorDistances s = .ok s')
    (hc : 2 ≤ (if s.focal_length.isSome then 1 else 0) +
      (if s.u.isSome then 1 else 0) + (if s.v.isSome then 1 else 0)) :
    s'.focal_length.isSome ∧ s'.u.isSome ∧ s'.v.isSome := by
  unfold mirrorDistances at h
  rcases hsu : s.u with _ | u <;> rcases hsv : s.v with _ | v <;>
    rcases hsf : s.focal_length with _ | f <;> rw [hsu, hsv, hsf] at h <;>
    (try simp only [] at h) <;> (try split at h) <;> (try split at h) <;>
    (cases h <;> simp_all)

/-- Same statement for the lens distance step. -/
theorem lensDistances_solves {s s' : MState} (h : lensDistances s = .ok s')
    (hc : 2 ≤ (if s.focal_length.isSome then 1 else 0) +
      (if s.u.isSome then 1 else 0) + (if s.v.isSome then 1 else 0)) :
    s'.focal_length.isSome ∧ s'.u.isSome ∧ s'.v.isSome := by
  unfold lensDistances at h
  rcases hsu : s.u with _ | u <;> rcases hsv : s.v with _ | v <;>
    rcases hsf : s.focal_length with _ | f <;> rw [hsu, hsv, hsf] at h <;>
    (try simp only [] at h) <;> (try split at h) <;> (try split at h) <;>
    (cases h <;> simp_all)

/-- Rounding keeps exactly the present values, rounded. -/
theorem roundValues_fields (s : MState) :
    (roundValues s).focal_length = s.focal_length.map roundP ∧
    (roundValues s).u = s.u.map roundP ∧
    (roundValues s).v = s.v.map roundP ∧
    (roundValues s).h1 = s.h1.map roundP ∧
    (roundValues s).h2 = s.h2.map roundP ∧
    (roundValues s).errors = s.errors ∧
    (roundValues s).warnings = s.warnings := by
  simp [roundValues]

/-- Image classification touches only the characteristics field. -/
theorem analyzeChars_fields (ot : OpticType) (s : MState) :
    (analyzeChars ot s).focal_length = s.focal_length ∧
    (analyzeChars ot s).u = s.u ∧
    (analyzeChars ot s).v = s.v ∧
    (analyzeChars ot s).h1 = s.h1 ∧
    (analyzeChars ot s).h2 = s.h2 ∧
    (analyzeChars ot s).errors = s.errors ∧
    (analyzeChars ot s).warnings = s.warnings := by
  unfold analyzeChars
  (try split) <;> (try split) <;> simp

/-- Transport of a present value across a preservation fact. -/
theorem isSome_of_pres {o t : Option PFloat}
    (hp : ∀ x, o = some x → t = some x) (ho : o.isSome = true) :
    t.isSome = true := by
  obtain ⟨x, hx⟩ := Option.isSome_iff_exists.mp ho
  exact Option.isSome_iff_exists.mpr ⟨x, hp x hx⟩

/-- A successful `calculate_mirror` means the solve chain succeeded on
the normalized initial state and returned its final state. -/
theorem calculateMirror_ok {d : InputData} {sh : Shape} {w : List String}
    (h : (calculateMirror d sh w).1 = true) :
    mirrorBody (mirrorInit d sh w) = .ok (calculateMirror d sh w).2 := by
  unfold calculateMirror at *
  cases hb : mirrorBody (mirrorInit d sh w) <;> simp_all

/-- A successful `calculate_lens` means the solve chain succeeded on
the initial state and returned its final state. -/
theorem calculateLens_ok {d : InputData} {sh : Shape} {w : List String}
    (h : (calculateLens d sh w).1 = true) :
    lensBody (initState d w) = .ok (calculateLens d sh w).2 := by
  unfold calculateLens at *
  cases hb : lensBody (initState d w) <;> simp_all

/-- On any successful mirror solve, every supplied value comes back
unchanged apart from the mirror sign normalization of f and the final
3-decimal rounding, and the warnings are exactly the incoming ones. -/
theorem calculateMirror_success_fields {d : InputData} {sh : Shape} {w : List String}
    (h : (calculateMirror d sh w).1 = true) :
    (∀ x, d.focal_length = some x →
      (calculateMirror d sh w).2.focal_length = some (roundP (mirrorNormF sh x))) ∧
    (∀ x, d.u = some x → (calculateMirror d sh w).2.u = some (roundP x)) ∧
    (∀ x, d.v = some x → (calculateMirror d sh w).2.v = some (roundP x)) ∧
    (∀ x, d.h1 = some x → (calculateMirror d sh w).2.h1 = some (roundP x)) ∧
    (∀ x, d.h2 = some x → (calculateMirror d sh w).2.h2 = some (roundP x)) ∧
    (calculateMirror d sh w).2.warnings = w := by
  obtain ⟨s1, s2, s3, s4, h1, h2, h3, h4, ht⟩ := mirrorBody_ok (calculateMirror_ok h)
  obtain ⟨d1f, d1u, d1v, d1h1, d1h2, d1w⟩ := mirrorDistances_pres h1
  obtain ⟨m2f, m2u, m2v, m2h1, m2h2, m2w, m2I, m2J⟩ := mirrorMag_pres h2
  obtain ⟨b3f, b3h1, b3h2, b3u, b3v, b3w, b3I⟩ := mirrorHBoth_pres h3
  obtain ⟨f4, u4, v4, h14, h24, w4⟩ := mirrorDefaultH_pres h4 (b3I m2I)
  obtain ⟨rf, ru, rv, rh1, rh2, re, rw'⟩ := roundValues_fields s4
  obtain ⟨af, au, av, ah1, ah2, ae, aw⟩ := analyzeChars_fields OpticType.mirror (roundValues s4)
  rw [ht]
  have hs0f : (mirrorInit d sh w).focal_length = d.focal_length.map (mirrorNormF sh) := rfl
  have hs0u : (mirrorInit d sh w).u = d.u := rfl
  have hs0v : (mirrorInit d sh w).v = d.v := rfl
  have hs0h1 : (mirrorInit d sh w).h1 = d.h1 := rfl
  have hs0h2 : (mirrorInit d sh w).h2 = d.h2 := rfl
  have hs0w : (mirrorInit d sh w).warnings = w := rfl
  refine ⟨?_, ?_, ?_, ?_, ?_, ?_⟩
  case _ =>
    intro x hx
    have : s4.focal_length = some (mirrorNormF sh x) := by
      rw [f4, b3f, m2f]
      exact d1f _ (by rw [hs0f, hx]; rfl)
    rw [af, rf, this]; rfl
  case _ =>
    intro x hx
    have : s4.u = some x := by
      rw [u4]
      exact b3u _ (by rw [m2u]; exact d1u _ (by rw [hs0u, hx]))
    rw [au, ru, this]; rfl
  case _ =>
    intro x hx
    have : s4.v = some x := by
      rw [v4]
      exact b3v _ (by rw [m2v]; exact d1v _ (by rw [hs0v, hx]))
    rw [av, rv, this]; rfl
  case _ =>
    intro x hx
    have : s4.h1 = some x := h14 _ (by rw [b3h1]; exact m2h1 _ (by rw [d1h1, hs0h1, hx]))
    rw [ah1, rh1, this]; rfl
  case _ =>
    intro x hx
    have : s4.h2 = some x := h24 _ (by rw [b3h2]; exact m2h2 _ (by rw [d1h2, hs0h2, hx]))
    rw [ah2, rh2, this]; rfl
  case _ =>
    rw [aw, rw', w4, b3w, m2w, d1w, hs0w]

/-- On any successful lens solve, every supplied value comes back
unchanged apart from the final 3-decimal rounding (no sign
normalization for lenses), and the warnings are the incoming ones. -/
theorem calculateLens_success_fields {d : InputData} {sh : Shape} {w : List String}
    (h : (calculateLens d sh w).1 = true) :
    (∀ x, d.focal_length = some x →
      (calculateLens d sh w).2.focal_length = some (roundP x)) ∧
    (∀ x, d.u = some x → (calculateLens d sh w).2.u = some (roundP x)) ∧
    (∀ x, d.v = some x → (calculateLens d sh w).2.v = some (roundP x)) ∧
    (∀ x, d.h1 = some x → (calculateLens d sh w).2.h1 = some (roundP x)) ∧
    (∀ x, d.h2 = some x → (calculateLens d sh w).2.h2 = some (roundP x)) ∧
    (calculateLens d sh w).2.warnings = w := by
  obtain ⟨s1, s2, s3, s4, h1, h2, h3, h4, ht⟩ := lensBody_ok (calculateLens_ok h)
  obtain ⟨d1f, d1u, d1v, d1h1, d1h2, d1w⟩ := lensDistances_pres h1
  obtain ⟨m2f, m2u, m2v, m2h1, m2h2, m2w, m2I, m2J⟩ := lensMag_pres h2
  obtain ⟨b3f, b3h1, b3h2, b3u, b3v, b3w, b3I⟩ := lensHBoth_pres h3
  obtain ⟨f4, u4, v4, h14, h24, w4⟩ := lensDefaultH_pres h4 (b3I m2I)
  obtain ⟨rf, ru, rv, rh1, rh2, re, rw'⟩ := roundValues_fields s4
  obtain ⟨af, au, av, ah1, ah2, ae, aw⟩ := analyzeChars_fields OpticType.lens (roundValues s4)
  rw [ht]
  have hs0f : (initState d w).focal_length = d.focal_length := rfl
  have hs0u : (initState d w).u = d.u := rfl
  have hs0v : (initState d w).v = d.v := rfl
  have hs0h1 : (initState d w).h1 = d.h1 := rfl
  have hs0h2 : (initState d w).h2 = d.h2 := rfl
  have hs0w : (initState d w).warnings = w := rfl
  refine ⟨?_, ?_, ?_, ?_, ?_, ?_⟩
  case _ =>
    intro x hx
    have : s4.focal_length = some x := by
      rw [f4, b3f, m2f]
      exact d1f _ (by rw [hs0f, hx])
    rw [af, rf, this]; rfl
  case _ =>
    intro x hx
    have : s4.u = some x := by
      rw [u4]
      exact b3u _ (by rw [m2u]; exact d1u _ (by rw [hs0u, hx]))
    rw [au, ru, this]; rfl
  case _ =>
    intro x hx
    have : s4.v = some x := by
      rw [v4]
      exact b3v _ (by rw [m2v]; exact d1v _ (by rw [hs0v, hx]))
    rw [av, rv, this]; rfl
  case _ =>
    intro x hx
    have : s4.h1 = some x := h14 _ (by rw [b3h1]; exact m2h1 _ (by rw [d1h1, hs0h1, hx]))
    rw [ah1, rh1, this]; rfl
  case _ =>
    intro x hx
    have : s4.h2 = some x := h24 _ (by rw [b3h2]; exact m2h2 _ (by rw [d1h2, hs0h2, hx]))
    rw [ah2, rh2, this]; rfl
  case _ =>
    rw [aw, rw', w4, b3w, m2w, d1w, hs0w]

/-- On a successful mirror solve with at least two of f, u, v
supplied, all five values end up resolved. -/
theorem calculateMirror_success_resolves {d : InputData} {sh : Shape} {w : List String}
    (h : (calculateMirror d sh w).1 = true)
    (hc : 2 ≤ (if d.focal_length.isSome then 1 else 0) +
      (if d.u.isSome then 1 else 0) + (if d.v.isSome then 1 else 0)) :
    (calculateMirror d sh w).2.focal_length.isSome = true ∧
    (calculateMirror d sh w).2.u.isSome = true ∧
    (calculateMirror d sh w).2.v.isSome = true ∧
    (calculateMirror d sh w).2.h1.isSome = true ∧
    (calculateMirror d sh w).2.h2.isSome = true := by
  obtain ⟨s1, s2, s3, s4, h1, h2, h3, h4, ht⟩ := mirrorBody_ok (calculateMirror_ok h)
  have hc0 : 2 ≤ (if (mirrorInit d sh w).focal_length.isSome then 1 else 0) +
      (if (mirrorInit d sh w).u.isSome then 1 else 0) +
      (if (mirrorInit d sh w).v.isSome then 1 else 0) := by
    have : (mirrorInit d sh w).focal_length.isSome = d.focal_length.isSome := by
      show (d.focal_length.map (mirrorNormF sh)).isSome = d.focal_length.isSome
      cases d.focal_length <;> rfl
    rw [this]
    exact hc
  obtain ⟨f1, u1, v1⟩ := mirrorDistances_solves h1 hc0
  obtain ⟨m2f, m2u, m2v, m2h1, m2h2, m2w, m2I, m2J⟩ := mirrorMag_pres h2
  obtain ⟨b3f, b3h1, b3h2, b3u, b3v, b3w, b3I⟩ := mirrorHBoth_pres h3
  have f3 : s3.focal_length.isSome = true := by rw [b3f, m2f]; exact f1
  have u3 : s3.u.isSome = true := isSome_of_pres b3u (by rw [m2u]; exact u1)
  have v3 : s3.v.isSome = true := isSome_of_pres b3v (by rw [m2v]; exact v1)
  have hJ3 : s3.h1.isSome = true → s3.h2.isSome = true := by
    rw [b3h1, b3h2]
    exact m2J (by rw [m2u] at *; exact u1) (by rw [m2v] at *; exact v1)
  obtain ⟨h14, h24⟩ := mirrorDefaultH_solves h4 f3 u3 v3 hJ3
  obtain ⟨pf, pu, pv, ph1, ph2, pw⟩ := mirrorDefaultH_pres h4 (b3I m2I)
  have f4 : s4.focal_length.isSome = true := by rw [pf]; exact f3
  have u4 : s4.u.isSome = true := by rw [pu]; exact u3
  have v4 : s4.v.isSome = true := by rw [pv]; exact v3
  obtain ⟨rf, ru, rv, rh1, rh2, re, rw'⟩ := roundValues_fields s4
  obtain ⟨af, au, av, ah1, ah2, ae, aw⟩ := analyzeChars_fields OpticType.mirror (roundValues s4)
  rw [ht, af, au, av, ah1, ah2, rf, ru, rv, rh1, rh2]
  have hmap : ∀ o : Option PFloat, (o.map roundP).isSome = o.isSome := by
    intro o; cases o <;> rfl
  rw [hmap, hmap, hmap, hmap, hmap]
  exact ⟨f4, u4, v4, h14, h24⟩

/-! ## Evaluation lemmas: the float operations on constructor shapes

Registered for `simp` so that concrete runs of the solver reduce. -/

@[simp] theorem pneg_fin (a : ℚ) : pneg (.fin a) = .fin (-a) := rfl

@[simp] theorem pneg_inf : pneg .inf = .ninf := rfl

@[simp] theorem pneg_ninf : pneg .ninf = .inf := rfl

@[simp] theorem pneg_nan : pneg .nan = .nan := rfl

@[simp] theorem pabs_fin (a : ℚ) : pabs (.fin a) = .fin |a| := rfl

@[simp] theorem pabs_inf : pabs .inf = .inf := rfl

@[simp] theorem pabs_ninf : pabs .ninf = .inf := rfl

@[simp] theorem pabs_nan : pabs .nan = .nan := rfl

@[simp] theorem padd_fin (a b : ℚ) : padd (.fin a) (.fin b) = .fin (a + b) := rfl

@[simp] theorem padd_fin_inf (a : ℚ) : padd (.fin a) .inf = .inf := rfl

@[simp] theorem padd_fin_ninf (a : ℚ) : padd (.fin a) .ninf = .ninf := rfl

@[simp] theorem padd_inf_fin (a : ℚ) : padd .inf (.fin a) = .inf := rfl

@[simp] theorem padd_ninf_fin (a : ℚ) : padd .ninf (.fin a) = .ninf := rfl

@[simp] theorem padd_inf_inf : padd .inf .inf = .inf := rfl

@[simp] theorem padd_ninf_ninf : padd .ninf .ninf = .ninf := rfl

@[simp] theorem padd_inf_ninf : padd .inf .ninf = .nan := rfl

@[simp] theorem padd_ninf_inf : padd .ninf .inf = .nan := rfl

@[simp] theorem padd_nan (x : PFloat) : padd .nan x = .nan := by cases x <;> rfl

@[simp] theorem padd_nan_right (x : PFloat) : padd x .nan = .nan := by cases x <;> rfl

@[simp] theorem pmul_fin (a b : ℚ) : pmul (.fin a) (.fin b) = .fin (a * b) := rfl

@[simp] theorem pmul_fin_inf (a : ℚ) :
    pmul (.fin a) .inf =
      (if 0 < a then PFloat.inf else if a < 0 then PFloat.ninf else PFloat.nan) := rfl

@[simp] theorem pmul_fin_ninf (a : ℚ) :
    pmul (.fin a) .ninf =
      (if 0 < a then PFloat.ninf else if a < 0 then PFloat.inf else PFloat.nan) := rfl

@[simp] theorem pmul_inf_fin (b : ℚ) :
    pmul .inf (.fin b) =
      (if 0 < b then PFloat.inf else if b < 0 then PFloat.ninf else PFloat.nan) := rfl

@[simp] theorem pmul_ninf_fin (b : ℚ) :
    pmul .ninf (.fin b) =
      (if 0 < b then PFloat.ninf else if b < 0 then PFloat.inf else PFloat.nan) := rfl

@[simp] theorem pmul_inf_inf : pmul .inf .inf = .inf := rfl

@[simp] theorem pmul_inf_ninf : pmul .inf .ninf = .ninf := rfl

@[simp] theorem pmul_ninf_inf : pmul .ninf .inf = .ninf := rfl

@[simp] theorem pmul_ninf_ninf : pmul .ninf .ninf = .inf := rfl

@[simp] theorem pmul_nan (x : PFloat) : pmul .nan x = .nan := by cases x <;> rfl

@[simp] theorem pmul_nan_right (x : PFloat) : pmul x .nan = .nan := by cases x <;> rfl

@[simp] theorem pdiv_fin (a b : ℚ) :
    pdiv (.fin a) (.fin b) =
      (if b = 0 then none else some (.fin (a / b))) := rfl

@[simp] theorem pdiv_inf_fin (b : ℚ) :
    pdiv .inf (.fin b) =
      (if b = 0 then none
       else some (if 0 < b then PFloat.inf else PFloat.ninf)) := rfl

@[simp] theorem pdiv_ninf_fin (b : ℚ) :
    pdiv .ninf (.fin b) =
      (if b = 0 then none
       else some (if 0 < b then PFloat.ninf else PFloat.inf)) := rfl

@[simp] theorem pdiv_nan_fin (b : ℚ) :
    pdiv .nan (.fin b) = (if b = 0 then none else some .nan) := rfl

@[simp] theorem pdiv_fin_inf (a : ℚ) : pdiv (.fin a) .inf = some (.fin 0) := rfl

@[simp] theorem pdiv_fin_ninf (a : ℚ) : pdiv (.fin a) .ninf = some (.fin 0) := rfl

@[simp] theorem pdiv_inf_inf : pdiv .inf .inf = some .nan := rfl

@[simp] theorem pdiv_inf_ninf : pdiv .inf .ninf = some .nan := rfl

@[simp] theorem pdiv_ninf_inf : pdiv .ninf .inf = some .nan := rfl

@[simp] theorem pdiv_ninf_ninf : pdiv .ninf .ninf = some .nan := rfl

@[simp] theorem pdiv_nan_inf : pdiv .nan .inf = some .nan := rfl

@[simp] theorem pdiv_nan_ninf : pdiv .nan .ninf = some .nan := rfl

@[simp] theorem pdiv_nan_nan : pdiv .nan .nan = some .nan := rfl

@[simp] theorem pdiv_fin_nan (a : ℚ) : pdiv (.fin a) .nan = some .nan := rfl

@[simp] theorem pdiv_inf_nan : pdiv .inf .nan = some .nan := rfl

@[simp] theorem pdiv_ninf_nan : pdiv .ninf .nan = some .nan := rfl

@[simp] theorem plt_fin (a b : ℚ) : plt (.fin a) (.fin b) = decide (a < b) := rfl

@[simp] theorem plt_fin_inf (a : ℚ) : plt (.fin a) .inf = true := rfl

@[simp] theorem plt_inf (x : PFloat) : plt .inf x = false := by cases x <;> rfl

@[simp] theorem plt_ninf_fin (a : ℚ) : plt .ninf (.fin a) = true := rfl

@[simp] theorem plt_ninf_inf : plt .ninf .inf = true := rfl

@[simp] theorem plt_ninf_ninf : plt .ninf .ninf = false := rfl

@[simp] theorem plt_nan (x : PFloat) : plt .nan x = false := by cases x <;> rfl

@[simp] theorem plt_fin_ninf (a : ℚ) : plt (.fin a) .ninf = false := rfl

@[simp] theorem plt_fin_nan (a : ℚ) : plt (.fin a) .nan = false := rfl

@[simp] theorem plt_ninf_nan : plt .ninf .nan = false := rfl

@[simp] theorem ple_fin (a b : ℚ) : ple (.fin a) (.fin b) = decide (a ≤ b) := rfl

@[simp] theorem ple_fin_inf (a : ℚ) : ple (.fin a) .inf = true := rfl

@[simp] theorem ple_inf_inf : ple .inf .inf = true := rfl

@[simp] theorem ple_inf_fin (a : ℚ) : ple .inf (.fin a) = false := rfl

@[simp] theorem ple_inf_ninf : ple .inf .ninf = false := rfl

@[simp] theorem ple_ninf_fin (a : ℚ) : ple .ninf (.fin a) = true := rfl

@[simp] theorem ple_ninf_inf : ple .ninf .inf = true := rfl

@[simp] theorem ple_ninf_ninf : ple .ninf .ninf = true := rfl

@[simp] theorem ple_nan (x : PFloat) : ple .nan x = false := by cases x <;> rfl

@[simp] theorem ple_fin_ninf (a : ℚ) : ple (.fin a) .ninf = false := rfl

@[simp] theorem ple_fin_nan (a : ℚ) : ple (.fin a) .nan = false := rfl

@[simp] theorem ple_inf_nan : ple .inf .nan = false := rfl

@[simp] theorem ple_ninf_nan : ple .ninf .nan = false := rfl

@[simp] theorem pgt_def (a b : PFloat) : pgt a b = plt b a := rfl

@[simp] theorem pge_def (a b : PFloat) : pge a b = ple b a := rfl

@[simp] theorem peq_fin (a b : ℚ) : peq (.fin a) (.fin b) = decide (a = b) := rfl

@[simp] theorem peq_inf_inf : peq .inf .inf = true := rfl

@[simp] theorem peq_ninf_ninf : peq .ninf .ninf = true := rfl

@[simp] theorem peq_fin_inf (a : ℚ) : peq (.fin a) .inf = false := rfl

@[simp] theorem peq_fin_ninf (a : ℚ) : peq (.fin a) .ninf = false := rfl

@[simp] theorem peq_inf_fin (a : ℚ) : peq .inf (.fin a) = false := rfl

@[simp] theorem peq_ninf_fin (a : ℚ) : peq .ninf (.fin a) = false := rfl

@[simp] theorem peq_nan (x : PFloat) : peq .nan x = false := by cases x <;> rfl

@[simp] theorem peq_nan_right (x : PFloat) : peq x .nan = false := by cases x <;> rfl

@[simp] theorem pisinf_fin (a : ℚ) : pisinf (.fin a) = false := rfl

@[simp] theorem pisinf_inf : pisinf .inf = true := rfl

@[simp] theorem pisinf_ninf : pisinf .ninf = true := rfl

@[simp] theorem pisinf_nan : pisinf .nan = false := rfl

theorem psub_def (a b : PFloat) : psub a b = padd a (pneg b) := rfl

@[simp] theorem psub_fin (a b : ℚ) : psub (.fin a) (.fin b) = .fin (a - b) := by
  simp [psub, sub_eq_add_neg]

@[simp] theorem psub_fin_inf (a : ℚ) : psub (.fin a) .inf = .ninf := rfl

@[simp] theorem psub_fin_ninf (a : ℚ) : psub (.fin a) .ninf = .inf := rfl

@[simp] theorem psub_inf_fin (a : ℚ) : psub .inf (.fin a) = .inf := rfl

@[simp] theorem psub_ninf_fin (a : ℚ) : psub .ninf (.fin a) = .ninf := rfl

@[simp] theorem psub_inf_inf : psub .inf .inf = .nan := rfl

@[simp] theorem psub_inf_ninf : psub .inf .ninf = .inf := rfl

@[simp] theorem psub_ninf_inf : psub .ninf .inf = .ninf := rfl

@[simp] theorem psub_ninf_ninf : psub .ninf .ninf = .nan := rfl

@[simp] theorem psub_nan (x : PFloat) : psub .nan x = .nan := by cases x <;> rfl

@[simp] theorem psub_nan_right (x : PFloat) : psub x .nan = .nan := by cases x <;> rfl

@[simp] theorem roundP_fin (q : ℚ) : roundP (.fin q) = .fin (roundQ3 q) := rfl

@[simp] theorem roundP_inf : roundP .inf = .inf := rfl

@[simp] theorem roundP_ninf : roundP .ninf = .ninf := rfl

@[simp] theorem roundP_nan : roundP .nan = .nan := rfl

@[simp] theorem pdivT_fin (a b : ℚ) :
    pdivT (.fin a) (.fin b) =
      (if b = 0 then PFloat.nan else .fin (a / b)) := by
  unfold pdivT
  by_cases hb : b = 0 <;> simp [hb]

@[simp] theorem pdivT_fin_inf (a : ℚ) : pdivT (.fin a) .inf = .fin 0 := rfl

@[simp] theorem pdivT_fin_ninf (a : ℚ) : pdivT (.fin a) .ninf = .fin 0 := rfl

@[simp] theorem pdivT_inf_fin (b : ℚ) :
    pdivT .inf (.fin b) =
      (if b = 0 then PFloat.nan else if 0 < b then PFloat.inf else PFloat.ninf) := by
  unfold pdivT
  by_cases hb : b = 0 <;> simp [hb]

@[simp] theorem pdivT_ninf_fin (b : ℚ) :
    pdivT .ninf (.fin b) =
      (if b = 0 then PFloat.nan else if 0 < b then PFloat.ninf else PFloat.inf) := by
  unfold pdivT
  by_cases hb : b = 0 <;> simp [hb]

@[simp] theorem pdivT_nan (x : PFloat) : pdivT .nan x = .nan := by
  unfold pdivT
  cases x <;> simp
  rename_i q
  by_cases hq : q = 0 <;> simp [hq]

/-- Evaluation shape for the rounding function, suitable for
`norm_num`: the floor and the comparisons are exposed. -/
theorem roundQ3_eq (q : ℚ) :
    roundQ3 q = ((rhe (q * 1000) : ℚ)) / 1000 := rfl

/-- Division by literal float zero always raises. -/
@[simp] theorem pdiv_zero_denom (a : PFloat) : pdiv a (.fin 0) = none := by
  cases a <;> simp

/-- Projections of the classification step. -/
@[simp] theorem analyzeChars_focal (ot : OpticType) (s : MState) :
    (analyzeChars ot s).focal_length = s.focal_length := (analyzeChars_fields ot s).1

@[simp] theorem analyzeChars_u (ot : OpticType) (s : MState) :
    (analyzeChars ot s).u = s.u := (analyzeChars_fields ot s).2.1

@[simp] theorem analyzeChars_v (ot : OpticType) (s : MState) :
    (analyzeChars ot s).v = s.v := (analyzeChars_fields ot s).2.2.1

@[simp] theorem analyzeChars_h1 (ot : OpticType) (s : MState) :
    (analyzeChars ot s).h1 = s.h1 := (analyzeChars_fields ot s).2.2.2.1

@[simp] theorem analyzeChars_h2 (ot : OpticType) (s : MState) :
    (analyzeChars ot s).h2 = s.h2 := (analyzeChars_fields ot s).2.2.2.2.1

@[simp] theorem analyzeChars_errors (ot : OpticType) (s : MState) :
    (analyzeChars ot s).errors = s.errors := (analyzeChars_fields ot s).2.2.2.2.2.1

@[simp] theorem analyzeChars_warnings (ot : OpticType) (s : MState) :
    (analyzeChars ot s).warnings = s.warnings := (analyzeChars_fields ot s).2.2.2.2.2.2

/-- Projections of the rounding step. -/
@[simp] theorem roundValues_focal (s : MState) :
    (roundValues s).focal_length = s.focal_length.map roundP := rfl

@[simp] theorem roundValues_u (s : MState) :
    (roundValues s).u = s.u.map roundP := rfl

@[simp] theorem roundValues_v (s : MState) :
    (roundValues s).v = s.v.map roundP := rfl

@[simp] theorem roundValues_h1 (s : MState) :
    (roundValues s).h1 = s.h1.map roundP := rfl

@[simp] theorem roundValues_h2 (s : MState) :
    (roundValues s).h2 = s.h2.map roundP := rfl

@[simp] theorem roundValues_errors (s : MState) :
    (roundValues s).errors = s.errors := rfl

@[simp] theorem roundValues_warnings (s : MState) :
    (roundValues s).warnings = s.warnings := rfl

/-! ## The claims -/

set_option maxHeartbeats 4000000 in
/-- C1: at the focal-point degeneracy thresholds the solvers assign the
exact signed infinities of the code, and outside them they perform the
closed-form division (followed by rounding).  Four parts: mirror
solving v from (f, u) at threshold abs(u - f) < 1e-6 with v = +inf iff
f < 0; mirror solving u from (f, v) at abs(v - f) < 1e-6 with the same
sign rule; lens solving v from (f, u) at abs(u + f) < 1e-6 with
v = +inf iff f > 0; lens solving u from (f, v) at abs(v - f) < 1e-6
with the same rule.  For mirrors f is the sign-normalized focal length
the solver works with.  The supplied-u parts assume the validated
u < 0 (so the magnification division cannot mask the result). -/
theorem C1_focal_point_infinity_sign_mapping :
    (∀ (f u : PFloat) (sh : Shape) (w : List String), pge u (.fin 0) = false →
      (calculateMirror ⟨some f, some u, none, none, none⟩ sh w).2.v =
        some (if plt (pabs (psub u (mirrorNormF sh f))) eps = true
          then (if plt (mirrorNormF sh f) (.fin 0) = true then PFloat.inf else PFloat.ninf)
          else roundP (pdivT (pmul (mirrorNormF sh f) u) (psub u (mirrorNormF sh f))))) ∧
    (∀ (f v : PFloat) (sh : Shape) (w : List String),
      (calculateMirror ⟨some f, none, some v, none, none⟩ sh w).2.u =
        some (if plt (pabs (psub v (mirrorNormF sh f))) eps = true
          then (if plt (mirrorNormF sh f) (.fin 0) = true then PFloat.inf else PFloat.ninf)
          else roundP (pdivT (pmul (mirrorNormF sh f) v) (psub v (mirrorNormF sh f))))) ∧
    (∀ (f u : PFloat) (sh : Shape) (w : List String), pge u (.fin 0) = false →
      (calculateLens ⟨some f, some u, none, none, none⟩ sh w).2.v =
        some (if plt (pabs (padd u f)) eps = true
          then (if pgt f (.fin 0) = true then PFloat.inf else PFloat.ninf)
          else roundP (pdivT (pmul f u) (padd u f)))) ∧
    (∀ (f v : PFloat) (sh : Shape) (w : List String),
      (calculateLens ⟨some f, none, some v, none, none⟩ sh w).2.u =
        some (if plt (pabs (psub v f)) eps = true
          then (if pgt f (.fin 0) = true then PFloat.inf else PFloat.ninf)
          else roundP (pdivT (pmul f v) (psub v f)))) := by
  refine ⟨?_, ?_, ?_, ?_⟩
  · intro f u sh w hu
    have hu0 : u ≠ PFloat.fin 0 := ne_fin0_of_not_pge hu
    by_cases hdeg : plt (pabs (psub u (mirrorNormF sh f))) eps = true
    · rw [if_pos hdeg]
      cases hc : plt (mirrorNormF sh f) (.fin 0) <;>
        simp [calculateMirror, mirrorInit, initState, mirrorBody, mirrorDistances,
          mirrorMag, mirrorHBoth, mirrorDefaultH, hdeg, hc, pdiv_of_ne_zero hu0]
    · rw [if_neg hdeg]
      have hdegf : plt (pabs (psub u (mirrorNormF sh f))) eps = false := by
        simpa using hdeg
      have hs : psub u (mirrorNormF sh f) ≠ PFloat.fin 0 := psub_ne_fin0_of_guard hdegf
      simp [calculateMirror, mirrorInit, initState, mirrorBody, mirrorDistances,
        mirrorMag, mirrorHBoth, mirrorDefaultH, hdegf, pdiv_of_ne_zero hu0,
        pdiv_of_ne_zero hs]
  · intro f v sh w
    by_cases hdeg : plt (pabs (psub v (mirrorNormF sh f))) eps = true
    · rw [if_pos hdeg]
      cases hc : plt (mirrorNormF sh f) (.fin 0) <;> rcases v with q | _ | _ | _ <;>
        simp_all [calculateMirror, mirrorInit, initState, mirrorBody, mirrorDistances,
          mirrorMag, mirrorHBoth, mirrorDefaultH]
    · rw [if_neg hdeg]
      have hdegf : plt (pabs (psub v (mirrorNormF sh f))) eps = false := by
        simpa using hdeg
      have hs : psub v (mirrorNormF sh f) ≠ PFloat.fin 0 := psub_ne_fin0_of_guard hdegf
      by_cases hU : pdivT (pmul (mirrorNormF sh f) v) (psub v (mirrorNormF sh f)) = PFloat.fin 0
      · simp [calculateMirror, mirrorInit, initState, mirrorBody, mirrorDistances,
          mirrorMag, mirrorHBoth, mirrorDefaultH, hdegf, pdiv_of_ne_zero hs, hU]
      · simp [calculateMirror, mirrorInit, initState, mirrorBody, mirrorDistances,
          mirrorMag, mirrorHBoth, mirrorDefaultH, hdegf, pdiv_of_ne_zero hs,
          pdiv_of_ne_zero hU]
  · intro f u sh w hu
    have hu0 : u ≠ PFloat.fin 0 := ne_fin0_of_not_pge hu
    by_cases hdeg : plt (pabs (padd u f)) eps = true
    · rw [if_pos hdeg]
      cases hc : plt (.fin 0) f <;>
        simp [calculateLens, initState, lensBody, lensDistances,
          lensMag, lensHBoth, lensDefaultH, hdeg, hc, pdiv_of_ne_zero hu0]
    · rw [if_neg hdeg]
      have hdegf : plt (pabs (padd u f)) eps = false := by simpa using hdeg
      have hs : padd u f ≠ PFloat.fin 0 := padd_ne_fin0_of_guard hdegf
      simp [calculateLens, initState, lensBody, lensDistances,
        lensMag, lensHBoth, lensDefaultH, hdegf, pdiv_of_ne_zero hu0,
        pdiv_of_ne_zero hs]
  · intro f v sh w
    by_cases hdeg : plt (pabs (psub v f)) eps = true
    · rw [if_pos hdeg]
      cases hc : plt (.fin 0) f <;> rcases v with q | _ | _ | _ <;>
        simp_all [calculateLens, initState, lensBody, lensDistances,
          lensMag, lensHBoth, lensDefaultH]
    · rw [if_neg hdeg]
      have hdegf : plt (pabs (psub v f)) eps = false := by simpa using hdeg
      have hs : psub v f ≠ PFloat.fin 0 := psub_ne_fin0_of_guard hdegf
      by_cases hU : pdivT (pmul f v) (psub v f) = PFloat.fin 0
      · simp [calculateLens, initState, lensBody, lensDistances,
          lensMag, lensHBoth, lensDefaultH, hdegf, pdiv_of_ne_zero hs, hU]
      · simp [calculateLens, initState, lensBody, lensDistances,
          lensMag, lensHBoth, lensDefaultH, hdegf, pdiv_of_ne_zero hs,
          pdiv_of_ne_zero hU]


/-- Witness for C1: concrete degenerate solves, mirror at
f = u = -50 (concave) and lens at f = 20, u = -20 (convex), both
yielding v = +inf. -/
theorem C1_focal_point_infinity_sign_mapping_witness :
    (calculateMirror ⟨some (.fin (-50)), some (.fin (-50)), none, none, none⟩
        Shape.concave []).2.v = some PFloat.inf ∧
    (calculateLens ⟨some (.fin 20), some (.fin (-20)), none, none, none⟩
        Shape.convex []).2.v = some PFloat.inf := by
  constructor
  · have h := C1_focal_point_infinity_sign_mapping.1 (.fin (-50)) (.fin (-50))
      Shape.concave [] (by norm_num)
    rw [h]
    norm_num [mirrorNormF, eps]
  · have h := C1_focal_point_infinity_sign_mapping.2.2.1 (.fin 20) (.fin (-20))
      Shape.convex [] (by norm_num)
    rw [h]
    norm_num [eps]

/-- C5: whenever the object distance is supplied with u >= 0,
validation fails with the invalid-object-distance error regardless of
every other input and of the optic type and shape selections, and the
route answers with a failure response (the solver is never run). -/
theorem C5_nonneg_object_distance_rejected
    (d : InputData) (ot : OpticType) (sh : Shape) (x : PFloat)
    (hx : d.u = some x) (hge : pge x (.fin 0) = true) :
    uErrMsg ∈ (validateInputs d (some ot) (some sh)).1 ∧
    calcRoute d (some ot) (some sh) =
      { success := false, errors := (validateInputs d (some ot) (some sh)).1,
        warnings := [] } := by
  have hmem : uErrMsg ∈ (validateInputs d (some ot) (some sh)).1 := by
    simp [validateInputs, uChecks, hx]
    exact Or.inr (Or.inl hge)
  refine ⟨hmem, ?_⟩
  have hne : ((validateInputs d (some ot) (some sh)).1).isEmpty = false := by
    cases hL : (validateInputs d (some ot) (some sh)).1 with
    | nil => rw [hL] at hmem; cases hmem
    | cons a l => simp [List.isEmpty]
  simp [calcRoute, hne]

/-- Witness for C5: a concrete input with u = 5 (and enough other
values) is rejected with the invalid-object-distance error. -/
theorem C5_nonneg_object_distance_rejected_witness :
    uErrMsg ∈ (validateInputs ⟨some (.fin 10), some (.fin 5), none, none, none⟩
      (some OpticType.mirror) (some Shape.concave)).1 ∧
    calcRoute ⟨some (.fin 10), some (.fin 5), none, none, none⟩
        (some OpticType.mirror) (some Shape.concave) =
      { success := false,
        errors := (validateInputs ⟨some (.fin 10), some (.fin 5), none, none, none⟩
          (some OpticType.mirror) (some Shape.concave)).1,
        warnings := [] } :=
  C5_nonneg_object_distance_rejected _ _ _ (.fin 5) rfl (by norm_num)

set_option maxHeartbeats 2000000 in
/-- C7: the concrete scenario mirror/concave, f = -50, u = -20 solves
to exactly f = -50, u = -20, v = 33.333, h1 = 15, h2 = 25 with a
Virtual, Erect, Magnified image (the route also carries the mirror
sign-convention warning that f = -50 is non-positive). -/
theorem C7_concave_mirror_scenario :
    calcRoute ⟨some (.fin (-50)), some (.fin (-20)), none, none, none⟩
        (some .mirror) (some .concave) =
      { success := true, errors := [],
        warnings := ["Using absolute value of focal length for concave mirror"],
        rFocal := some (.fin (-50)), rU := some (.fin (-20)),
        rV := some (.fin (33333/1000)), rH1 := some (.fin 15),
        rH2 := some (.fin 25),
        rChars := some ⟨"Virtual", "Erect", "Magnified", .fin (1667/1000)⟩ } := by
  norm_num [calcRoute, validateInputs, fChecks, uChecks, h1Checks, countCheck, countGiven,
    calculateMirror, mirrorInit, initState, mirrorNormF, mirrorBody, mirrorDistances,
    mirrorMag, mirrorHBoth, mirrorDefaultH, roundValues, analyzeChars, mirrorFWarnMsg,
    eps, roundQ3, rhe, abs_of_pos, abs_of_neg]

/-- C2 counterexample: for the degenerate lens input f = 20, u = -20
the route reports success with v = +inf, but the successful response
carries an empty warnings list: the focal-point advisory is NOT
delivered to the caller as a warning (it was appended to the internal
errors list, which a success response does not include), refuting the
claim as stated. -/
theorem C2_advisory_not_a_warning_counterexample :
    calcRoute ⟨some (.fin 20), some (.fin (-20)), none, none, none⟩
        (some OpticType.lens) (some Shape.convex) =
      { success := true, errors := [], warnings := [],
        rFocal := some (.fin 20), rU := some (.fin (-20)),
        rV := some PFloat.inf, rH1 := some (.fin 6), rH2 := some PFloat.ninf,
        rChars := some ⟨"Image at infinity", "Parallel rays", "Infinite", PFloat.inf⟩ } := by
  norm_num [calcRoute, validateInputs, fChecks, uChecks, h1Checks, countCheck, countGiven,
    calculateLens, initState, lensBody, lensDistances, lensMag, lensHBoth, lensDefaultH,
    roundValues, analyzeChars, eps, roundQ3, rhe, abs_of_pos, abs_of_neg]

set_option maxHeartbeats 1000000 in
/-- C2 amended: at the lens focal-point degeneracy the solve still
returns True with the signed-infinity sentinel, and the advisory is
appended to the internal errors list while the warnings list stays
exactly the incoming one — so a successful response, which only
carries warnings, never surfaces the advisory to the caller. -/
theorem C2_focal_degeneracy_nonfatal (f u : PFloat) (sh : Shape) (w : List String)
    (hu : pge u (.fin 0) = false)
    (hdeg : plt (pabs (padd u f)) eps = true) :
    (calculateLens ⟨some f, some u, none, none, none⟩ sh w).1 = true ∧
    (calculateLens ⟨some f, some u, none, none, none⟩ sh w).2.v =
      some (if pgt f (.fin 0) = true then PFloat.inf else PFloat.ninf) ∧
    objAtFocusMsg ∈ (calculateLens ⟨some f, some u, none, none, none⟩ sh w).2.errors ∧
    (calculateLens ⟨some f, some u, none, none, none⟩ sh w).2.warnings = w := by
  have hu0 : u ≠ PFloat.fin 0 := ne_fin0_of_not_pge hu
  cases hc : plt (.fin 0) f <;>
    simp [calculateLens, initState, lensBody, lensDistances, lensMag, lensHBoth,
      lensDefaultH, hdeg, hc, pdiv_of_ne_zero hu0]

/-- Witness for C2's amended claim at f = 20, u = -20. -/
theorem C2_focal_degeneracy_nonfatal_witness :
    (calculateLens ⟨some (.fin 20), some (.fin (-20)), none, none, none⟩
      Shape.convex []).1 = true ∧
    (calculateLens ⟨some (.fin 20), some (.fin (-20)), none, none, none⟩
      Shape.convex []).2.v =
      some (if pgt (PFloat.fin 20) (.fin 0) = true then PFloat.inf else PFloat.ninf) ∧
    objAtFocusMsg ∈ (calculateLens ⟨some (.fin 20), some (.fin (-20)), none, none, none⟩
      Shape.convex []).2.errors ∧
    (calculateLens ⟨some (.fin 20), some (.fin (-20)), none, none, none⟩
      Shape.convex []).2.warnings = [] :=
  C2_focal_degeneracy_nonfatal (.fin 20) (.fin (-20)) Shape.convex []
    (by norm_num) (by norm_num [eps])

/-- C3 counterexample: a concave mirror with supplied f = +50 (and
u = -20) is admitted with an EMPTY warnings list — the mirror warning
fires only for f <= 0, so "accepted with a warning" is false — while
the solver does normalize f to -50. -/
theorem C3_plus50_no_warning_counterexample :
    validateInputs ⟨some (.fin 50), some (.fin (-20)), none, none, none⟩
        (some OpticType.mirror) (some Shape.concave) = ([], []) ∧
    (calculateMirror ⟨some (.fin 50), some (.fin (-20)), none, none, none⟩
        Shape.concave []).2.focal_length = some (.fin (-50)) := by
  constructor
  · norm_num [validateInputs, fChecks, uChecks, h1Checks, countCheck, countGiven]
  · norm_num [calculateMirror, mirrorInit, initState, mirrorNormF, mirrorBody,
      mirrorDistances, mirrorMag, mirrorHBoth, mirrorDefaultH, eps, roundQ3, rhe,
      abs_of_pos, abs_of_neg]

/-- C3 amended: mirror sign normalization forces a concave f to
-abs(f) and a convex f to abs(f) before any formula runs; lenses keep
the supplied sign of f (up to rounding) on every successful solve; and
the concrete concave mirror with f = +50 is admitted WITHOUT any
warning (the mirror warning fires only for supplied f <= 0) and solved
with f = -50. -/
theorem C3_sign_normalization :
    (∀ q : ℚ, mirrorNormF Shape.concave (.fin q) = .fin (-|q|)) ∧
    (∀ q : ℚ, mirrorNormF Shape.convex (.fin q) = .fin |q|) ∧
    (∀ (d : InputData) (sh : Shape) (w : List String) (x : PFloat),
      (calculateLens d sh w).1 = true → d.focal_length = some x →
      (calculateLens d sh w).2.focal_length = some (roundP x)) ∧
    (validateInputs ⟨some (.fin 50), some (.fin (-20)), none, none, none⟩
      (some OpticType.mirror) (some Shape.concave)).2 = [] ∧
    (calculateMirror ⟨some (.fin 50), some (.fin (-20)), none, none, none⟩
      Shape.concave []).2.focal_length = some (.fin (-50)) := by
  refine ⟨?_, ?_, ?_, ?_, ?_⟩
  · intro q
    by_cases hq : 0 < q
    · simp [mirrorNormF, hq, abs_of_pos hq]
    · simp [mirrorNormF, hq, abs_of_nonpos (le_of_not_lt hq)]
  · intro q
    by_cases hq : q < 0
    · simp [mirrorNormF, hq]
    · have habs : |q| = q := abs_of_nonneg (le_of_not_lt hq)
      simp [mirrorNormF, hq, habs]
  · intro d sh w x hs hx
    exact (calculateLens_success_fields hs).1 x hx
  · norm_num [validateInputs, fChecks, uChecks, h1Checks, countCheck, countGiven]
  · norm_num [calculateMirror, mirrorInit, initState, mirrorNormF, mirrorBody,
      mirrorDistances, mirrorMag, mirrorHBoth, mirrorDefaultH, eps, roundQ3, rhe,
      abs_of_pos, abs_of_neg]

set_option maxHeartbeats 1000000 in
/-- Witness for C3: the lens-preservation conjunct applied at the
successful convex-lens solve f = 20, u = -30. -/
theorem C3_sign_normalization_witness :
    (calculateLens ⟨some (.fin 20), some (.fin (-30)), none, none, none⟩
      Shape.convex []).2.focal_length = some (roundP (.fin 20)) :=
  C3_sign_normalization.2.2.1 ⟨some (.fin 20), some (.fin (-30)), none, none, none⟩
    Shape.convex [] (.fin 20)
    (by norm_num [calculateLens, initState, lensBody, lensDistances, lensMag,
      lensHBoth, lensDefaultH, eps, roundQ3, rhe, abs_of_pos, abs_of_neg])
    rfl

/-- C4 counterexample: the pair u = -20, h1 = 5 passes validation
(two values supplied), the mirror solve is reported successful, yet
the image distance v (and f and h2) remain unresolved — the solver
does not resolve every remaining unknown for all 2-of-5 patterns. -/
theorem C4_two_of_five_counterexample :
    (validateInputs ⟨none, some (.fin (-20)), none, some (.fin 5), none⟩
      (some OpticType.mirror) (some Shape.concave)).1 = [] ∧
    (calculateMirror ⟨none, some (.fin (-20)), none, some (.fin 5), none⟩
      Shape.concave []).1 = true ∧
    (calculateMirror ⟨none, some (.fin (-20)), none, some (.fin 5), none⟩
      Shape.concave []).2.v = none := by
  refine ⟨?_, ?_, ?_⟩
  · norm_num [validateInputs, fChecks, uChecks, h1Checks, countCheck, countGiven]
  · norm_num [calculateMirror, mirrorInit, initState, mirrorBody, mirrorDistances,
      mirrorMag, mirrorHBoth, mirrorDefaultH]
  · norm_num [calculateMirror, mirrorInit, initState, mirrorBody, mirrorDistances,
      mirrorMag, mirrorHBoth, mirrorDefaultH]

/-- C4 amended: on a successful mirror solve, (i) when at least two of
f, u, v are supplied all five values end up resolved, and (ii) every
supplied value is returned unchanged apart from the mirror sign
normalization of f and the final 3-decimal rounding (no derivation
step ever overwrites a present value); patterns such as u with h1, or
h1 with h2 alone, pass validation and report success but leave the
other values unresolved. -/
theorem C4_resolution_and_no_overwrite (d : InputData) (sh : Shape) (w : List String) :
    ((calculateMirror d sh w).1 = true →
      2 ≤ (if d.focal_length.isSome then 1 else 0) + (if d.u.isSome then 1 else 0) +
        (if d.v.isSome then 1 else 0) →
      (calculateMirror d sh w).2.focal_length.isSome = true ∧
      (calculateMirror d sh w).2.u.isSome = true ∧
      (calculateMirror d sh w).2.v.isSome = true ∧
      (calculateMirror d sh w).2.h1.isSome = true ∧
      (calculateMirror d sh w).2.h2.isSome = true) ∧
    ((calculateMirror d sh w).1 = true →
      (∀ x, d.focal_length = some x →
        (calculateMirror d sh w).2.focal_length = some (roundP (mirrorNormF sh x))) ∧
      (∀ x, d.u = some x → (calculateMirror d sh w).2.u = some (roundP x)) ∧
      (∀ x, d.v = some x → (calculateMirror d sh w).2.v = some (roundP x)) ∧
      (∀ x, d.h1 = some x → (calculateMirror d sh w).2.h1 = some (roundP x)) ∧
      (∀ x, d.h2 = some x → (calculateMirror d sh w).2.h2 = some (roundP x))) := by
  constructor
  · intro hs hc
    exact calculateMirror_success_resolves hs hc
  · intro hs
    obtain ⟨pf, pu, pv, ph1, ph2, pw⟩ := calculateMirror_success_fields hs
    exact ⟨pf, pu, pv, ph1, ph2⟩

set_option maxHeartbeats 1000000 in
/-- Witness for C4's amended claim: the pair f = -50, u = -20 (two of
the three distances) fully resolves, and the supplied values come back
(rounded) unchanged. -/
theorem C4_resolution_and_no_overwrite_witness :
    (calculateMirror ⟨some (.fin (-50)), some (.fin (-20)), none, none, none⟩
      Shape.concave []).2.focal_length.isSome = true ∧
    (calculateMirror ⟨some (.fin (-50)), some (.fin (-20)), none, none, none⟩
      Shape.concave []).2.v.isSome = true ∧
    (calculateMirror ⟨some (.fin (-50)), some (.fin (-20)), none, none, none⟩
      Shape.concave []).2.u = some (roundP (.fin (-20))) := by
  have hs : (calculateMirror ⟨some (.fin (-50)), some (.fin (-20)), none, none, none⟩
      Shape.concave []).1 = true := by
    norm_num [calculateMirror, mirrorInit, initState, mirrorNormF, mirrorBody,
      mirrorDistances, mirrorMag, mirrorHBoth, mirrorDefaultH, eps, roundQ3, rhe,
      abs_of_pos, abs_of_neg]
  have h := C4_resolution_and_no_overwrite
    ⟨some (.fin (-50)), some (.fin (-20)), none, none, none⟩ Shape.concave []
  exact ⟨(h.1 hs (by norm_num)).1, (h.1 hs (by norm_num)).2.2.1,
    (h.2 hs).2.1 (.fin (-20)) rfl⟩

/-- The magnification step leaves both heights absent when neither was
known. -/
theorem mirrorMag_hnone {s s' : MState} (h : mirrorMag s = .ok s')
    (h1 : s.h1 = none) (h2 : s.h2 = none) : s'.h1 = none ∧ s'.h2 = none := by
  unfold mirrorMag at h
  rcases hsu : s.u with _ | u <;> rcases hsv : s.v with _ | v <;>
    rw [hsu, hsv] at h <;> (try simp only [] at h) <;>
    (try split at h) <;> (try rw [h1, h2] at h) <;>
    (try simp only [] at h) <;> (try split at h) <;>
    (cases h <;> simp_all)

/-- Same for the lens magnification step. -/
theorem lensMag_hnone {s s' : MState} (h : lensMag s = .ok s')
    (h1 : s.h1 = none) (h2 : s.h2 = none) : s'.h1 = none ∧ s'.h2 = none := by
  unfold lensMag at h
  rcases hsu : s.u with _ | u <;> rcases hsv : s.v with _ | v <;>
    rw [hsu, hsv] at h <;> (try simp only [] at h) <;>
    (try split at h) <;> (try rw [h1, h2] at h) <;>
    (try simp only [] at h) <;> (try split at h) <;>
    (cases h <;> simp_all)

/-- When h1 is still unknown and f is known, the default-height step
sets h1 to 0.3 * abs(f). -/
theorem mirrorDefaultH_value {s s' : MState} {x : PFloat}
    (h : mirrorDefaultH s = .ok s') (hh : s.h1 = none)
    (hf : s.focal_length = some x) :
    s'.h1 = some (pmul (pabs x) (.fin (3/10))) := by
  unfold mirrorDefaultH at h
  rw [hh, hf] at h
  simp only [] at h
  rcases hsu : s.u with _ | u <;> rcases hsv : s.v with _ | v <;>
    rw [hsu, hsv] at h <;> (try simp only [] at h) <;>
    (try split at h) <;> (cases h <;> simp_all)

/-- Same for the lens default-height step. -/
theorem lensDefaultH_value {s s' : MState} {x : PFloat}
    (h : lensDefaultH s = .ok s') (hh : s.h1 = none)
    (hf : s.focal_length = some x) :
    s'.h1 = some (pmul (pabs x) (.fin (3/10))) := by
  unfold lensDefaultH at h
  rw [hh, hf] at h
  simp only [] at h
  rcases hsu : s.u with _ | u <;> rcases hsv : s.v with _ | v <;>
    rw [hsu, hsv] at h <;> (try simp only [] at h) <;>
    (try split at h) <;> (cases h <;> simp_all)

/-- C6 counterexample: lens with f = 20 and h2 = 5 supplied (a height
was supplied by the user) passes validation, solves successfully, and
STILL synthesizes the default object height h1 = 0.3 * 20 = 6, because
u and v are unknown and h1 could not be derived from h2. -/
theorem C6_default_height_counterexample :
    (validateInputs ⟨some (.fin 20), none, none, none, some (.fin 5)⟩
      (some OpticType.lens) (some Shape.convex)).1 = [] ∧
    (calculateLens ⟨some (.fin 20), none, none, none, some (.fin 5)⟩
      Shape.convex []).1 = true ∧
    (calculateLens ⟨some (.fin 20), none, none, none, some (.fin 5)⟩
      Shape.convex []).2.h1 = some (.fin 6) ∧
    (calculateLens ⟨some (.fin 20), none, none, none, some (.fin 5)⟩
      Shape.convex []).2.h2 = some (.fin 5) := by
  refine ⟨?_, ?_, ?_, ?_⟩ <;>
    norm_num [validateInputs, fChecks, uChecks, h1Checks, countCheck, countGiven,
      calculateLens, initState, lensBody, lensDistances, lensMag, lensHBoth,
      lensDefaultH, roundValues, analyzeChars, eps, roundQ3, rhe, abs_of_pos]

/-- C6 amended: the default-height synthesis fires exactly when h1 is
still unknown at that point and f is known.  In particular (i) with no
height supplied at all and f supplied, every successful solve sets
h1 = 0.3 * abs(f) (f sign-normalized for mirrors); (ii) a supplied h1
always suppresses it; but a supplied h2 does NOT suppress it when u
and v are not both known (counterexample above), and h2 is recomputed
from u and v only when both are known. -/
theorem C6_default_height_trigger :
    (∀ (d : InputData) (sh : Shape) (w : List String) (x : PFloat),
      d.h1 = none → d.h2 = none → d.focal_length = some x →
      (calculateMirror d sh w).1 = true →
      (calculateMirror d sh w).2.h1 =
        some (roundP (pmul (pabs (mirrorNormF sh x)) (.fin (3/10))))) ∧
    (∀ (d : InputData) (sh : Shape) (w : List String) (x : PFloat),
      d.h1 = none → d.h2 = none → d.focal_length = some x →
      (calculateLens d sh w).1 = true →
      (calculateLens d sh w).2.h1 = some (roundP (pmul (pabs x) (.fin (3/10))))) ∧
    (∀ (d : InputData) (sh : Shape) (w : List String) (x : PFloat),
      d.h1 = some x → (calculateMirror d sh w).1 = true →
      (calculateMirror d sh w).2.h1 = some (roundP x)) ∧
    (∀ (d : InputData) (sh : Shape) (w : List String) (x : PFloat),
      d.h1 = some x → (calculateLens d sh w).1 = true →
      (calculateLens d sh w).2.h1 = some (roundP x)) := by
  refine ⟨?_, ?_, ?_, ?_⟩
  · intro d sh w x h1n h2n hf hs
    obtain ⟨s1, s2, s3, s4, e1, e2, e3, e4, ht⟩ := mirrorBody_ok (calculateMirror_ok hs)
    obtain ⟨d1f, d1u, d1v, d1h1, d1h2, d1w⟩ := mirrorDistances_pres e1
    have h1n1 : s1.h1 = none := by rw [d1h1]; exact h1n
    have h2n1 : s1.h2 = none := by rw [d1h2]; exact h2n
    obtain ⟨h1n2, h2n2⟩ := mirrorMag_hnone e2 h1n1 h2n1
    obtain ⟨b3f, b3h1, b3h2, b3u, b3v, b3w, b3I⟩ := mirrorHBoth_pres e3
    have h1n3 : s3.h1 = none := by rw [b3h1]; exact h1n2
    have hf1 : s1.focal_length = some (mirrorNormF sh x) := by
      apply d1f
      show (mirrorInit d sh w).focal_length = _
      simp [mirrorInit, initState, hf]
    obtain ⟨m2f, m2u, m2v, m2h1, m2h2, m2w, m2I, m2J⟩ := mirrorMag_pres e2
    have hf3 : s3.focal_length = some (mirrorNormF sh x) := by
      rw [b3f, m2f]; exact hf1
    have h4v := mirrorDefaultH_value e4 h1n3 hf3
    rw [ht]
    simp [h4v]
  · intro d sh w x h1n h2n hf hs
    obtain ⟨s1, s2, s3, s4, e1, e2, e3, e4, ht⟩ := lensBody_ok (calculateLens_ok hs)
    obtain ⟨d1f, d1u, d1v, d1h1, d1h2, d1w⟩ := lensDistances_pres e1
    have h1n1 : s1.h1 = none := by rw [d1h1]; exact h1n
    have h2n1 : s1.h2 = none := by rw [d1h2]; exact h2n
    obtain ⟨h1n2, h2n2⟩ := lensMag_hnone e2 h1n1 h2n1
    obtain ⟨b3f, b3h1, b3h2, b3u, b3v, b3w, b3I⟩ := lensHBoth_pres e3
    have h1n3 : s3.h1 = none := by rw [b3h1]; exact h1n2
    have hf1 : s1.focal_length = some x := by
      apply d1f
      show (initState d w).focal_length = _
      simp [initState, hf]
    obtain ⟨m2f, m2u, m2v, m2h1, m2h2, m2w, m2I, m2J⟩ := lensMag_pres e2
    have hf3 : s3.focal_length = some x := by rw [b3f, m2f]; exact hf1
    have h4v := lensDefaultH_value e4 h1n3 hf3
    rw [ht]
    simp [h4v]
  · intro d sh w x hx hs
    exact (calculateMirror_success_fields hs).2.2.2.1 x hx
  · intro d sh w x hx hs
    exact (calculateLens_success_fields hs).2.2.2.1 x hx

set_option maxHeartbeats 1000000 in
/-- Witness for C6's amended claim: the no-heights lens solve
f = 20, u = -30 gets the default h1 = 6, and a supplied h1 = 5 in the
same scenario is kept. -/
theorem C6_default_height_trigger_witness :
    (calculateLens ⟨some (.fin 20), some (.fin (-30)), none, none, none⟩
      Shape.convex []).2.h1 = some (roundP (pmul (pabs (.fin 20)) (.fin (3/10)))) ∧
    (calculateLens ⟨some (.fin 20), some (.fin (-30)), none, some (.fin 5), none⟩
      Shape.convex []).2.h1 = some (roundP (.fin 5)) := by
  constructor
  · exact C6_default_height_trigger.2.1
      ⟨some (.fin 20), some (.fin (-30)), none, none, none⟩ Shape.convex [] (.fin 20)
      rfl rfl rfl
      (by norm_num [calculateLens, initState, lensBody, lensDistances, lensMag,
        lensHBoth, lensDefaultH, eps, roundQ3, rhe, abs_of_pos])
  · exact C6_default_height_trigger.2.2.2
      ⟨some (.fin 20), some (.fin (-30)), none, some (.fin 5), none⟩ Shape.convex [] (.fin 5)
      rfl
      (by norm_num [calculateLens, initState, lensBody, lensDistances, lensMag,
        lensHBoth, lensDefaultH, eps, roundQ3, rhe, abs_of_pos])

/-- A value above the `pgt` zero test is not finite zero. -/
theorem ne_fin0_of_pgt {y : PFloat} (h : pgt y (.fin 0) = true) :
    y ≠ .fin 0 := by
  intro h0; rw [h0] at h; norm_num [pgt, plt] at h

/-- C8: evaluating the code at the failing round-trip input.  The lens
solve f = 20, u = -30 derives v = 60; re-solving f from u = -30,
v = 60 returns f = -20 (the code computes u*v/(v-u)), while the lens
formula stated in the code's own comment, 1/f = 1/v - 1/u, is
satisfied by +20 and not by -20: the round-trip law fails with a sign
flip. -/
theorem C8_lens_focal_recovery_sign_flip :
    (calculateLens ⟨some (.fin 20), some (.fin (-30)), none, none, none⟩
      Shape.convex []).2.v = some (.fin 60) ∧
    (calculateLens ⟨none, some (.fin (-30)), some (.fin 60), none, none⟩
      Shape.convex []).2.focal_length = some (.fin (-20)) ∧
    ((1 : ℚ) / 20 = 1 / 60 - 1 / (-30) ∧ ¬((1 : ℚ) / (-20) = 1 / 60 - 1 / (-30))) := by
  refine ⟨?_, ?_, by norm_num, by norm_num⟩ <;>
    norm_num [calculateLens, initState, lensBody, lensDistances, lensMag, lensHBoth,
      lensDefaultH, roundValues, analyzeChars, eps, roundQ3, rhe, abs_of_pos, abs_of_neg]

set_option maxHeartbeats 2000000 in
/-- C9 counterexample: the mirror solve f = 10 (convex), u = -0.0004
succeeds and fully resolves to the rounded set
(10, 0, 0, 3, 3) — rounding collapses u and v to zero — and re-running
the solver on exactly this resolved set fails with a division by zero
(the magnification -v/u) instead of leaving the values unchanged. -/
theorem C9_idempotence_counterexample :
    (calculateMirror ⟨some (.fin 10), some (.fin (-1/2500)), none, none, none⟩
      Shape.convex []) =
      (true, ⟨some (.fin 10), some (.fin 0), some (.fin 0), some (.fin 3), some (.fin 3),
        [], [], some ⟨"Virtual", "Erect", "Same size", .fin 1⟩⟩) ∧
    (calculateMirror ⟨some (.fin 10), some (.fin 0), some (.fin 0), some (.fin 3),
      some (.fin 3)⟩ Shape.convex []).1 = false := by
  constructor <;>
    norm_num [calculateMirror, mirrorInit, initState, mirrorNormF, mirrorBody,
      mirrorDistances, mirrorMag, mirrorHBoth, mirrorDefaultH, roundValues,
      analyzeChars, eps, roundQ3, rhe, abs_of_pos, abs_of_neg]

/-- C9 amended: re-running either solver on a fully-resolved,
3-decimal-rounded measurement set leaves every value unchanged and
succeeds, PROVIDED the resolved u and h1 are nonzero (and, for a
mirror re-run, f is already sign-normalized for the shape — true of
any prior mirror output for the same shape).  Without the nonzero
provisos idempotence fails, as the counterexample shows. -/
theorem C9_rerun_identity (f u v h1 h2 : PFloat) (sh : Shape) (w : List String)
    (hf : roundP f = f) (hu : roundP u = u) (hv : roundP v = v)
    (hh1 : roundP h1 = h1) (hh2 : roundP h2 = h2)
    (hu0 : u ≠ .fin 0) (hh10 : h1 ≠ .fin 0)
    (hnorm : mirrorNormF sh f = f) :
    ((calculateMirror ⟨some f, some u, some v, some h1, some h2⟩ sh w).1 = true ∧
     (calculateMirror ⟨some f, some u, some v, some h1, some h2⟩ sh w).2.focal_length = some f ∧
     (calculateMirror ⟨some f, some u, some v, some h1, some h2⟩ sh w).2.u = some u ∧
     (calculateMirror ⟨some f, some u, some v, some h1, some h2⟩ sh w).2.v = some v ∧
     (calculateMirror ⟨some f, some u, some v, some h1, some h2⟩ sh w).2.h1 = some h1 ∧
     (calculateMirror ⟨some f, some u, some v, some h1, some h2⟩ sh w).2.h2 = some h2) ∧
    ((calculateLens ⟨some f, some u, some v, some h1, some h2⟩ sh w).1 = true ∧
     (calculateLens ⟨some f, some u, some v, some h1, some h2⟩ sh w).2.focal_length = some f ∧
     (calculateLens ⟨some f, some u, some v, some h1, some h2⟩ sh w).2.u = some u ∧
     (calculateLens ⟨some f, some u, some v, some h1, some h2⟩ sh w).2.v = some v ∧
     (calculateLens ⟨some f, some u, some v, some h1, some h2⟩ sh w).2.h1 = some h1 ∧
     (calculateLens ⟨some f, some u, some v, some h1, some h2⟩ sh w).2.h2 = some h2) := by
  constructor
  · simp [calculateMirror, mirrorInit, initState, mirrorBody, mirrorDistances,
      mirrorMag, mirrorHBoth, mirrorDefaultH, pdiv_of_ne_zero hu0,
      pdiv_of_ne_zero hh10, hnorm, hf, hu, hv, hh1, hh2]
  · simp [calculateLens, initState, lensBody, lensDistances,
      lensMag, lensHBoth, lensDefaultH, pdiv_of_ne_zero hu0,
      pdiv_of_ne_zero hh10, hf, hu, hv, hh1, hh2]

/-- Witness for C9's amended claim at the rounded resolved set
(10, -20, 5, 3, 3), convex mirror. -/
theorem C9_rerun_identity_witness :
    (calculateMirror ⟨some (.fin 10), some (.fin (-20)), some (.fin 5), some (.fin 3),
      some (.fin 3)⟩ Shape.convex []).1 = true ∧
    (calculateMirror ⟨some (.fin 10), some (.fin (-20)), some (.fin 5), some (.fin 3),
      some (.fin 3)⟩ Shape.convex []).2.u = some (.fin (-20)) :=
  have h := C9_rerun_identity (.fin 10) (.fin (-20)) (.fin 5) (.fin 3) (.fin 3)
    Shape.convex []
    (by norm_num [roundQ3, rhe]) (by norm_num [roundQ3, rhe])
    (by norm_num [roundQ3, rhe]) (by norm_num [roundQ3, rhe])
    (by norm_num [roundQ3, rhe]) (by norm_num) (by norm_num)
    (by norm_num [mirrorNormF])
  ⟨h.1.1, h.1.2.2.1⟩

/-- C10 counterexample: with f = -10, u = -20, v = 0 and h2 = 5 all
supplied (validation passes), the solve is NOT reported successful:
the height back-derivation h1 = h2 / (-v/u) divides by zero and the
calculation aborts with a CalculationError. -/
theorem C10_all_distances_counterexample :
    (validateInputs ⟨some (.fin (-10)), some (.fin (-20)), some (.fin 0), none,
      some (.fin 5)⟩ (some OpticType.mirror) (some Shape.concave)).1 = [] ∧
    (calculateMirror ⟨some (.fin (-10)), some (.fin (-20)), some (.fin 0), none,
      some (.fin 5)⟩ Shape.concave []).1 = false := by
  constructor <;>
    norm_num [validateInputs, fChecks, uChecks, h1Checks, countCheck, countGiven,
      calculateMirror, mirrorInit, initState, mirrorNormF, mirrorBody, mirrorDistances,
      mirrorMag, mirrorHBoth, mirrorDefaultH, eps, roundQ3, rhe]

/-- C10 amended: when f, u and v are all supplied, no consistency
check of the mirror or lens formula is performed: the solve succeeds
whenever the heights cannot make it divide by zero (no heights
supplied, or h1 supplied positive), and the three distances are
returned unchanged apart from mirror sign normalization of f and the
3-decimal rounding — with no hypothesis that the triple satisfies
1/f = 1/u + 1/v or 1/f = 1/v - 1/u.  When h2 is supplied without h1
the solve can instead fail (counterexample above). -/
theorem C10_no_consistency_check (d : InputData) (sh : Shape) (w : List String)
    (f u v : PFloat)
    (hdf : d.focal_length = some f) (hdu : d.u = some u) (hdv : d.v = some v)
    (hu : pge u (.fin 0) = false)
    (hh : (d.h1 = none ∧ d.h2 = none) ∨ (∃ y, d.h1 = some y ∧ pgt y (.fin 0) = true)) :
    ((calculateMirror d sh w).1 = true ∧
     (calculateMirror d sh w).2.focal_length = some (roundP (mirrorNormF sh f)) ∧
     (calculateMirror d sh w).2.u = some (roundP u) ∧
     (calculateMirror d sh w).2.v = some (roundP v)) ∧
    ((calculateLens d sh w).1 = true ∧
     (calculateLens d sh w).2.focal_length = some (roundP f) ∧
     (calculateLens d sh w).2.u = some (roundP u) ∧
     (calculateLens d sh w).2.v = some (roundP v)) := by
  have hu0 : u ≠ PFloat.fin 0 := ne_fin0_of_not_pge hu
  obtain ⟨df, du, dv, dh1, dh2⟩ := d
  simp only [] at hdf hdu hdv hh
  subst hdf hdu hdv
  have hsm : (calculateMirror ⟨some f, some u, some v, dh1, dh2⟩ sh w).1 = true ∧
      (calculateLens ⟨some f, some u, some v, dh1, dh2⟩ sh w).1 = true := by
    rcases hh with ⟨h1n, h2n⟩ | ⟨y, hy, hygt⟩
    · subst h1n h2n
      constructor <;>
        simp [calculateMirror, mirrorInit, calculateLens, initState, mirrorBody,
          mirrorDistances, mirrorMag, mirrorHBoth, mirrorDefaultH, lensBody,
          lensDistances, lensMag, lensHBoth, lensDefaultH, pdiv_of_ne_zero hu0]
    · subst hy
      have hy0 : y ≠ PFloat.fin 0 := ne_fin0_of_pgt hygt
      rcases dh2 with _ | z <;> constructor <;>
        simp [calculateMirror, mirrorInit, calculateLens, initState, mirrorBody,
          mirrorDistances, mirrorMag, mirrorHBoth, mirrorDefaultH, lensBody,
          lensDistances, lensMag, lensHBoth, lensDefaultH, pdiv_of_ne_zero hu0,
          pdiv_of_ne_zero hy0]
  refine ⟨⟨hsm.1, ?_, ?_, ?_⟩, ⟨hsm.2, ?_, ?_, ?_⟩⟩
  · exact (calculateMirror_success_fields hsm.1).1 f rfl
  · exact (calculateMirror_success_fields hsm.1).2.1 u rfl
  · exact (calculateMirror_success_fields hsm.1).2.2.1 v rfl
  · exact (calculateLens_success_fields hsm.2).1 f rfl
  · exact (calculateLens_success_fields hsm.2).2.1 u rfl
  · exact (calculateLens_success_fields hsm.2).2.2.1 v rfl

/-- Witness for C10's amended claim: the triple f = 1, u = -2, v = 3
violates the mirror formula (1/f = 1 but 1/u + 1/v = -1/6) and the
lens formula, yet both solves succeed and return it unchanged. -/
theorem C10_no_consistency_check_witness :
    ((calculateMirror ⟨some (.fin 1), some (.fin (-2)), some (.fin 3), none, none⟩
        Shape.convex []).1 = true ∧
     (calculateMirror ⟨some (.fin 1), some (.fin (-2)), some (.fin 3), none, none⟩
        Shape.convex []).2.v = some (roundP (.fin 3))) ∧
    ¬((1 : ℚ) / 1 = 1 / (-2) + 1 / 3) := by
  have h := C10_no_consistency_check
    ⟨some (.fin 1), some (.fin (-2)), some (.fin 3), none, none⟩ Shape.convex []
    (.fin 1) (.fin (-2)) (.fin 3) rfl rfl rfl (by norm_num)
    (Or.inl ⟨rfl, rfl⟩)
  exact ⟨⟨h.1.1, h.1.2.2.2⟩, by norm_num⟩

end Optics
